import Mathlib

/-!
Shallow embedding of the supply-chain agent model of the Digital-Twin-v1
repository (src/src/agents/*.py), together with theorems settling the
frozen claims about its specification.

Quantities (tons/units, Python floats) are modelled as rationals `ℚ`;
Python dicts keyed by strings are modelled as association lists with
replace-or-append update, mirroring insertion order and first-binding
lookup; timestamps (`datetime.now()`) are modelled as explicit rational
time parameters; calls to `random.uniform` are modelled as explicit
draw parameters constrained by the interval the source passes.
-/

namespace DigitalTwin

/-- First-binding lookup in an association list: `d.get(k)` / `d[k]` on a
Python dict whose insertion order the list mirrors. -/
def assocLookup {α β : Type} [DecidableEq α] : List (α × β) → α → Option β
  | [], _ => none
  | (k', v) :: rest, k => if k' = k then some v else assocLookup rest k

/-- Source: `d[k] = v` on a Python dict: replace the first binding of `k`, or append
a new binding at the end (Python dicts preserve insertion order). -/
def assocSet {α β : Type} [DecidableEq α] : List (α × β) → α → β → List (α × β)
  | [], k, v => [(k, v)]
  | (k', v') :: rest, k, v =>
    if k' = k then (k, v) :: rest else (k', v') :: assocSet rest k v

theorem assocLookup_assocSet_self {α β : Type} [DecidableEq α]
    (l : List (α × β)) (k : α) (v : β) :
    assocLookup (assocSet l k v) k = some v := by
  induction l with
  | nil => simp [assocSet, assocLookup]
  | cons hd tl ih =>
    obtain ⟨k', v'⟩ := hd
    by_cases h : k' = k
    · simp [assocSet, assocLookup, h]
    · simp [assocSet, assocLookup, h, ih]

theorem assocLookup_assocSet_ne {α β : Type} [DecidableEq α]
    (l : List (α × β)) (k k' : α) (v : β) (h : k' ≠ k) :
    assocLookup (assocSet l k v) k' = assocLookup l k' := by
  induction l with
  | nil => simp [assocSet, assocLookup, Ne.symm h]
  | cons hd tl ih =>
    obtain ⟨a, b⟩ := hd
    by_cases ha : a = k
    · subst ha
      simp [assocSet, assocLookup, Ne.symm h]
    · simp [assocSet, assocLookup, ha, ih]

/-- Inventory / storage: Python dict mapping material name to quantity. -/
abbrev Inv := List (String × ℚ)

namespace Inv

/-- Source: `d.get(k, 0.0)`. -/
def getD (inv : Inv) (k : String) : ℚ := (assocLookup inv k).getD 0

/-- Source: `d[k] = v`. -/
def set (inv : Inv) (k : String) (v : ℚ) : Inv := assocSet inv k v

/-- Source: `sum(d.values())`. -/
def total (inv : Inv) : ℚ := (inv.map (·.2)).sum

theorem getD_set_self (inv : Inv) (k : String) (v : ℚ) :
    (inv.set k v).getD k = v := by
  simp [set, getD, assocLookup_assocSet_self]

theorem getD_set_ne (inv : Inv) (k k' : String) (v : ℚ) (h : k' ≠ k) :
    (inv.set k v).getD k' = inv.getD k' := by
  simp [set, getD, assocLookup_assocSet_ne inv k k' v h]

/-- Updating one key changes the total by the difference between the new
value and the first bound value of that key. -/
theorem total_set (inv : Inv) (k : String) (v : ℚ) :
    (inv.set k v).total = inv.total + v - inv.getD k := by
  induction inv with
  | nil => simp [set, total, assocSet, getD, assocLookup]
  | cons hd tl ih =>
    obtain ⟨a, b⟩ := hd
    by_cases ha : a = k
    · subst ha
      simp [set, total, assocSet, getD, assocLookup]
      ring
    · simp only [set, assocSet, if_neg ha] at ih ⊢
      simp only [total, List.map_cons, List.sum_cons] at ih ⊢
      simp only [getD, assocLookup, if_neg ha] at ih ⊢
      linarith

end Inv

/-! ## ProcessingAgent (src/src/agents/processing_agent.py) -/

/-- One entry of `transformation_recipes` (see `demo_processing_agent` for the
field shape used throughout the repository). -/
structure Recipe where
  inputMaterial : String
  outputMaterial : String
  conversionRatio : ℚ
  processingTimeHours : ℚ
  energyCostPerTon : ℚ
  /-- Source: `recipe.get("required_method")`: `none` models an absent key. -/
  requiredMethod : Option String
deriving Repr, DecidableEq

/-- A processing-job record as built in `ProcessingAgent.process_material`.
`jobId` is the numeric counter interpolated into the source's
`f"JOB_{self.agent_id}_{...:04d}"` string; for a fixed agent the rendered
string is determined by this counter.  The source dict carries no
`"required_method"` key, which `jobGetRequiredMethod` below reflects. -/
structure Job where
  jobId : Nat
  recipeName : String
  inputMaterial : String
  inputQuantity : ℚ
  expectedOutputMaterial : String
  expectedOutputQuantity : ℚ
  targetQuality : ℚ
  processingTimeHours : ℚ
  energyCost : ℚ
  priority : String
  status : String
  startedAt : Option ℚ
  completedAt : Option ℚ
  actualOutputQuantity : Option ℚ
  actualQuality : Option ℚ
deriving Repr, DecidableEq

/-- Source: `job.get("required_method")`: the dict literal built in
`process_material` (processing_agent.py lines 247–263) contains no
`"required_method"` key, so this lookup always yields `None`. -/
def jobGetRequiredMethod (_ : Job) : Option String := none

/-- The operator decisions read out of `operator_inputs` by
`process_material`.  Every call site relevant to the claims supplies all
four keys, so they are modelled as always present. -/
structure OperatorInputs where
  selectedRecipe : String
  batchSize : ℚ
  qualityTarget : ℚ
  processingPriority : String
deriving Repr, DecidableEq

/-- Mutable state of a `ProcessingAgent`.  `rawStorageCapacity` is the
`capacity * 0.75` allocation fixed in `__init__`. -/
structure PState where
  processingMethods : List String
  transformationRecipes : List (String × Recipe)
  equipmentStatus : List (String × String)
  equipmentEfficiency : List (String × ℚ)
  rawMaterialStorage : Inv
  processedMaterialStorage : Inv
  materialQualityGrades : Inv
  activeProcessingJobs : List Job
  processingQueue : List Job
  processingHistory : List Job
  rawStorageCapacity : ℚ
  totalMaterialsProcessed : ℚ
  processingCosts : ℚ
deriving Repr, DecidableEq

/-- Structured result of `process_material`: the `"status": "error"` dicts
(identified by which validation produced them) or the `"status": "success"`
dict. -/
inductive PResult where
  | error (kind : String)
  | success (jobId : Nat) (queuedPosition : Nat) (outputMaterial : String)
      (outputQuantity : ℚ) (outputQuality : ℚ)
deriving Repr, DecidableEq

def PResult.isSuccess : PResult → Bool
  | .success _ _ _ _ _ => true
  | .error _ => false

/-- Source: `priority_order = {"urgent": 0, "normal": 1, "batch_when_full": 2}` with
`.get(priority, 1)`. -/
def priorityRank (p : String) : Nat :=
  if p = "urgent" then 0
  else if p = "normal" then 1
  else if p = "batch_when_full" then 2
  else 1

/-- Insert a job into a queue in front of the first job of
greater-or-equal priority rank.  `sortQueue` below is the stable
insertion sort this builds; a stable sort by key is determined
extensionally by the key and the original order, so it embeds the
source's `self.processing_queue.sort(key=...)` (Python's `list.sort` is
documented stable). -/
def insertJob (j : Job) : List Job → List Job
  | [] => [j]
  | x :: xs =>
    if priorityRank j.priority ≤ priorityRank x.priority then j :: x :: xs
    else x :: insertJob j xs

/-- Stable sort of the processing queue by priority class. -/
def sortQueue : List Job → List Job
  | [] => []
  | x :: xs => insertJob x (sortQueue xs)

/-- Validation 3 of `process_material`: `required_method and
equipment_status.get(required_method) != "operational"` is falsy. -/
def equipOk (s : PState) (recipe : Recipe) : Bool :=
  match recipe.requiredMethod with
  | none => true
  | some m => assocLookup s.equipmentStatus m == some "operational"

/-- Source: `equipment_efficiency.get(required_method, 100.0) / 100.0`; a `None`
method key is absent from the dict, so the default applies. -/
def effOf (s : PState) (rm : Option String) : ℚ :=
  (match rm with
   | some m => (assocLookup s.equipmentEfficiency m).getD 100
   | none => 100) / 100

/-- Reference quality target: `quality_multiplier = quality_target / 0.85`. -/
def qualityRef : ℚ := 85 / 100

/-- The job record built by `process_material` once all three validations
pass (processing_agent.py lines 222–263). -/
def mkProcessingJob (s : PState) (materialType : String) (ops : OperatorInputs)
    (recipe : Recipe) : Job :=
  let equipmentEfficiency := effOf s recipe.requiredMethod
  let actualConversionRatio := recipe.conversionRatio * equipmentEfficiency
  let qualityMultiplier := ops.qualityTarget / qualityRef
  { jobId := s.processingHistory.length + 1
    recipeName := ops.selectedRecipe
    inputMaterial := materialType
    inputQuantity := ops.batchSize
    expectedOutputMaterial := recipe.outputMaterial
    expectedOutputQuantity := ops.batchSize * actualConversionRatio
    targetQuality := ops.qualityTarget
    processingTimeHours := recipe.processingTimeHours * qualityMultiplier
    energyCost := recipe.energyCostPerTon * qualityMultiplier * ops.batchSize
    priority := ops.processingPriority
    status := "queued"
    startedAt := none
    completedAt := none
    actualOutputQuantity := none
    actualQuality := none }

/-- Source: `ProcessingAgent.process_material`: validate, reserve the input
material out of raw storage, append the job and re-sort the queue. -/
def processMaterial (s : PState) (materialType : String) (ops : OperatorInputs) :
    PResult × PState :=
  match assocLookup s.transformationRecipes ops.selectedRecipe with
  | none => (.error "unknown_recipe", s)
  | some recipe =>
    let available := s.rawMaterialStorage.getD materialType
    if available < ops.batchSize then (.error "insufficient_material", s)
    else if !equipOk s recipe then (.error "equipment_not_operational", s)
    else
      let job := mkProcessingJob s materialType ops recipe
      let newRaw := s.rawMaterialStorage.set materialType (available - ops.batchSize)
      let newQueue := sortQueue (s.processingQueue ++ [job])
      (.success job.jobId newQueue.length job.expectedOutputMaterial
         job.expectedOutputQuantity ops.qualityTarget,
       { s with rawMaterialStorage := newRaw, processingQueue := newQueue })

/-- The fields of a mining shipment dict read by
`ProcessingAgent.receive_shipment_from_mining`. -/
structure MiningShipmentData where
  oreType : String
  quantity : ℚ
  oreQuality : ℚ
deriving Repr, DecidableEq

/-- Source: `ProcessingAgent.receive_shipment_from_mining`: reject unknown ore
types, clip to the raw-storage allocation, reject when it is full. -/
def receiveShipmentFromMining (s : PState) (sh : MiningShipmentData) :
    Bool × PState :=
  let canProcess := s.transformationRecipes.any (fun kv => kv.2.inputMaterial = sh.oreType)
  if !canProcess then (false, s)
  else
    let currentRawStorage := s.rawMaterialStorage.total
    let accept : ℚ → Bool × PState := fun quantity =>
      (true,
       { s with
          rawMaterialStorage :=
            s.rawMaterialStorage.set sh.oreType
              (s.rawMaterialStorage.getD sh.oreType + quantity)
          materialQualityGrades :=
            s.materialQualityGrades.set sh.oreType sh.oreQuality })
    if currentRawStorage + sh.quantity > s.rawStorageCapacity then
      let availableSpace := s.rawStorageCapacity - currentRawStorage
      if availableSpace ≤ 0 then (false, s)
      else accept availableSpace
    else accept sh.quantity

/-- Source: `required_method = self.transformation_recipes[job["recipe_name"]]
.get("required_method")` in the job-start loop.  For every job the agent
ever enqueues the recipe name is a key of the dict; a missing key would
raise `KeyError` in the source and is modelled as `none` here. -/
def recipeRequiredMethod (s : PState) (j : Job) : Option String :=
  match assocLookup s.transformationRecipes j.recipeName with
  | some r => r.requiredMethod
  | none => none

/-- Source: `equipment_busy = any(job.get("required_method") == required_method
for job in self.active_processing_jobs.values())` — note the left-hand
lookup is on the job record, which never carries that key. -/
def equipmentBusy (active : List Job) (rm : Option String) : Bool :=
  active.any (fun aj => jobGetRequiredMethod aj == rm)

/-- The start condition of the job-start loop in
`run_processing_operations` (lines 343–350). -/
def canStart (s : PState) (active : List Job) (j : Job) : Bool :=
  !equipmentBusy active (recipeRequiredMethod s j) &&
    (match recipeRequiredMethod s j with
     | some m => assocLookup s.equipmentStatus m == some "operational"
     | none => false)

/-- Source: `next_job["status"] = "processing"; next_job["started_at"] = current_time`. -/
def startedJob (t : ℚ) (j : Job) : Job :=
  { j with status := "processing", startedAt := some t }

/-- The `while` loop of `run_processing_operations` that promotes queued
jobs: pop the head, start it if its line is free and operational, else
push it back and stop.  `maxJobs` is `len(self.processing_methods)`. -/
def startLoop (s : PState) (maxJobs : Nat) (t : ℚ) :
    List Job → List Job → List Job × List Job
  | active, [] => (active, [])
  | active, j :: rest =>
    if active.length < maxJobs then
      if canStart s active j then
        startLoop s maxJobs t (active ++ [startedJob t j]) rest
      else (active, j :: rest)
    else (active, j :: rest)

/-- Source: `current_time >= job["started_at"] + timedelta(hours=job["processing_time_hours"])`. -/
def jobFinished (t : ℚ) (j : Job) : Bool :=
  match j.startedAt with
  | some st => st + j.processingTimeHours ≤ t
  | none => false

/-- Completion of one active job in `run_processing_operations`
(lines 298–329): credit `expected × uniform(0.95, 1.05)` to processed
storage, record quality, move the job to history.  `draws j` packages the
two `random.uniform(0.95, 1.05)` results for job `j`. -/
def creditJob (t : ℚ) (draws : Job → ℚ × ℚ) (s : PState) (j : Job) : PState :=
  let actualOutput := j.expectedOutputQuantity * (draws j).1
  let actualQuality := j.targetQuality * (draws j).2
  let done :=
    { j with
        status := "completed"
        completedAt := some t
        actualOutputQuantity := some actualOutput
        actualQuality := some actualQuality }
  { s with
      processedMaterialStorage :=
        s.processedMaterialStorage.set j.expectedOutputMaterial
          (s.processedMaterialStorage.getD j.expectedOutputMaterial + actualOutput)
      materialQualityGrades :=
        s.materialQualityGrades.set j.expectedOutputMaterial actualQuality
      processingHistory := s.processingHistory ++ [done]
      totalMaterialsProcessed := s.totalMaterialsProcessed + j.inputQuantity
      processingCosts := s.processingCosts + j.energyCost }

/-- First half of `run_processing_operations`: complete every active job
whose simulated duration has elapsed, in insertion order. -/
def completionPhase (t : ℚ) (draws : Job → ℚ × ℚ) (s : PState) : PState :=
  (s.activeProcessingJobs.filter (jobFinished t)).foldl (creditJob t draws)
    { s with
        activeProcessingJobs :=
          s.activeProcessingJobs.filter (fun j => !jobFinished t j) }

/-- Source: `ProcessingAgent.run_processing_operations` at simulated time `t`. -/
def runProcessingOperations (s : PState) (t : ℚ) (draws : Job → ℚ × ℚ) : PState :=
  let s1 := completionPhase t draws s
  let res := startLoop s1 s1.processingMethods.length t
    s1.activeProcessingJobs s1.processingQueue
  { s1 with activeProcessingJobs := res.1, processingQueue := res.2 }

/-! ## MiningAgent (src/src/agents/mining_agent.py) -/

/-- A mining shipment record as built by `create_shipment_to_processing`.
`shipmentId` is the numeric counter interpolated into
`f"Ship_{self.agent_id}_{...:04d}"`; for a fixed agent the rendered string
is determined by this counter.  `estimatedArrival` is set at dispatch. -/
structure Shipment where
  shipmentId : Nat
  oreType : String
  quantity : ℚ
  destinationAgentId : String
  oreQuality : ℚ
  extractionCost : ℚ
  status : String
  dispatchedAt : Option ℚ
  estimatedArrival : Option ℚ
deriving Repr, DecidableEq

/-- Mutable state of a `MiningAgent`. -/
structure MineState where
  mineCapacity : ℚ
  oreTypes : List String
  extractionRate : ℚ
  equipmentEfficiency : ℚ
  inventory : Inv
  oreReserves : Inv
  oreQuality : Inv
  extractionCosts : Inv
  pendingShipments : List Shipment
  shippedMaterials : List Shipment
  currentShiftExtraction : ℚ
  totalExtracted : ℚ
deriving Repr, DecidableEq

/-- The fields of the dict returned by `MiningAgent.process_material` that
the orchestrator reads. -/
structure ExtractionResult where
  status : String
  extractedMaterial : String
  extractedQuantity : ℚ
  oreQuality : ℚ
deriving Repr, DecidableEq

/-- Source: `max(self.ore_reserves.items(), key=lambda x: x[1])[0]`: Python's
`max` keeps the first maximal item.  The source raises `ValueError` on an
empty dict; that case is modelled by the empty-string ore. -/
def argmaxOre : Inv → String
  | [] => ""
  | (k, v) :: rest => (rest.foldl (fun best kv => if kv.2 > best.2 then kv else best) (k, v)).1

/-- Source: `MiningAgent.process_material`.  `material`/`quantity` are the two
optional arguments; `variability` stands for the
`random.uniform(0.8, 1.2)` draw of the no-explicit-quantity branch.
Note that `if quantity:` is falsy both for `None` and for `0.0`. -/
def mineProcessMaterial (s : MineState) (material : Option String)
    (quantity : Option ℚ) (variability : ℚ) : ExtractionResult × MineState :=
  let targetOre :=
    match material with
    | some m => if m ∈ s.oreTypes then m else argmaxOre s.oreReserves
    | none => argmaxOre s.oreReserves
  let e1 :=
    match quantity with
    | some q =>
      if q = 0 then s.extractionRate * variability * (s.equipmentEfficiency / 100)
      else min q s.extractionRate
    | none => s.extractionRate * variability * (s.equipmentEfficiency / 100)
  let reserves := s.oreReserves.getD targetOre
  let e2 := if reserves < e1 then reserves else e1
  let remainingCapacity := s.mineCapacity - s.inventory.total
  let extractionAmount := if e2 > remainingCapacity then remainingCapacity else e2
  let s' :=
    if 0 < extractionAmount then
      { s with
          oreReserves := s.oreReserves.set targetOre (reserves - extractionAmount)
          inventory :=
            s.inventory.set targetOre (s.inventory.getD targetOre + extractionAmount)
          currentShiftExtraction := s.currentShiftExtraction + extractionAmount
          totalExtracted := s.totalExtracted + extractionAmount }
    else s
  ({ status := if 0 < extractionAmount then "success" else "limited_extraction"
     extractedMaterial := targetOre
     extractedQuantity := extractionAmount
     oreQuality := s.oreQuality.getD targetOre }, s')

/-- Source: `MiningAgent.create_shipment_to_processing`: validate stock and ore
type, reserve the quantity out of inventory, queue the shipment. -/
def createShipmentToProcessing (s : MineState) (oreType : String) (quantity : ℚ)
    (destinationAgentId : String) : Bool × MineState :=
  if s.inventory.getD oreType < quantity then (false, s)
  else if oreType ∉ s.oreTypes then (false, s)
  else
    let sh : Shipment :=
      { shipmentId := s.pendingShipments.length + 1
        oreType := oreType
        quantity := quantity
        destinationAgentId := destinationAgentId
        oreQuality := s.oreQuality.getD oreType
        extractionCost := s.extractionCosts.getD oreType
        status := "pending_pickup"
        dispatchedAt := none
        estimatedArrival := none }
    (true,
     { s with
        inventory := s.inventory.set oreType (s.inventory.getD oreType - quantity)
        pendingShipments := s.pendingShipments ++ [sh] })

/-- Source: `MiningAgent.process_shipments` at time `t`: dispatch every pending
shipment and clear the pending queue.  `transportTime` stands for the
`random.uniform(2, 8)` transit-hours draw. -/
def mineProcessShipments (s : MineState) (t transportTime : ℚ) :
    List Shipment × MineState :=
  let dispatched := s.pendingShipments.map (fun sh =>
    { sh with
        status := "dispatched"
        dispatchedAt := some t
        estimatedArrival := some (t + transportTime) })
  (dispatched,
   { s with
      pendingShipments := []
      shippedMaterials := s.shippedMaterials ++ dispatched })

/-! ## DistributionAgent (src/src/agents/distribution_agent.py) -/

/-- A shipping-order record as built by `create_shipping_order`.
`orderId` is the numeric counter interpolated into
`f"ORDER_{...:04d}"`. -/
structure Order where
  orderId : Nat
  material : String
  quantity : ℚ
  destination : String
  deliveryZone : String
  status : String
  dispatchedAt : Option ℚ
  estimatedDeliveryTime : Option ℚ
  route : Option String
deriving Repr, DecidableEq

/-- Mutable state of a `DistributionAgent`.  `pending_shipments` and
`active_shipments` are dicts keyed by order id. -/
structure DistState where
  capacity : ℚ
  shippingZones : List String
  currentInventory : Inv
  pendingShipments : List (Nat × Order)
  activeShipments : List (Nat × Order)
  shipmentHistory : List Order
  totalShipments : Nat
deriving Repr, DecidableEq

/-- The fields of the dict returned by `DistributionAgent.process_material`. -/
structure DistReceiveResult where
  status : String
  receivedMaterial : String
  receivedQuantity : ℚ
  totalInventory : ℚ
deriving Repr, DecidableEq

/-- Source: `DistributionAgent.process_material`: add the received quantity to
warehouse inventory unconditionally (line 82), with no clipping or
rejection.  When the new total exceeds 90% of capacity, the warning
log's f-string (line 89) reads `self.warehouse_capacity` — an attribute
the constructor never assigns (the parameter is stored only as
`self.capacity` by `super().__init__`) — so the method raises
`AttributeError` *after* the mutation and never reaches its success
return on that path; otherwise it returns the success dict.  The result
is the raised exception or the returned dict; the state is the
post-mutation state in either case. -/
def distProcessMaterial (s : DistState) (material : String) (quantity : ℚ) :
    Except String DistReceiveResult × DistState :=
  let newInventory :=
    s.currentInventory.set material (s.currentInventory.getD material + quantity)
  let totalInventory := Inv.total newInventory
  let s' := { s with currentInventory := newInventory }
  if totalInventory > s.capacity * (9 / 10) then
    (.error "AttributeError: warehouse_capacity", s')
  else
    (.ok
      { status := "success"
        receivedMaterial := material
        receivedQuantity := quantity
        totalInventory := totalInventory }, s')

/-- Source: `DistributionAgent.create_shipping_order`: validate stock and zone,
reserve the quantity, store the order under its generated id (a colliding
id overwrites the dict entry, as in the source). -/
def createShippingOrder (s : DistState) (material : String) (quantity : ℚ)
    (destination deliveryZone : String) : Bool × DistState :=
  if s.currentInventory.getD material < quantity then (false, s)
  else if deliveryZone ∉ s.shippingZones then (false, s)
  else
    let orderId := s.pendingShipments.length + 1
    let order : Order :=
      { orderId := orderId
        material := material
        quantity := quantity
        destination := destination
        deliveryZone := deliveryZone
        status := "pending"
        dispatchedAt := none
        estimatedDeliveryTime := none
        route := none }
    (true,
     { s with
        currentInventory :=
          s.currentInventory.set material (s.currentInventory.getD material - quantity)
        pendingShipments := assocSet s.pendingShipments orderId order
        totalShipments := s.totalShipments + 1 })

/-- Route name and delivery delay assigned per zone in
`DistributionAgent.process_shipments`. -/
def routeForZone (zone : String) : String × ℚ :=
  if zone = "Zone_A" then ("Route_A", 8)
  else if zone = "Zone_B" then ("Route_B", 12)
  else if zone = "Zone_C" then ("Route_C", 16)
  else ("Unknown", 24)

/-- Source: `DistributionAgent.process_shipments` at time `t`: dispatch up to 5
pending orders, moving them to the active dict and the history. -/
def distProcessShipments (s : DistState) (t : ℚ) : List Order × DistState :=
  let batch := s.pendingShipments.take 5
  let dispatched := batch.map (fun kv =>
    let o := kv.2
    let rz := routeForZone o.deliveryZone
    { o with
        status := "dispatched"
        dispatchedAt := some t
        estimatedDeliveryTime := some (t + rz.2)
        route := some rz.1 })
  (dispatched,
   { s with
      pendingShipments := s.pendingShipments.drop 5
      activeShipments := dispatched.foldl (fun a o => assocSet a o.orderId o) s.activeShipments
      shipmentHistory := s.shipmentHistory ++ dispatched })

/-! ## ManufacturingAgent (src/src/agents/manufacturing_agent.py)

Only the completion half of `run_manufacturing_operations` (lines
368–427) and its quality-control gate are embedded: that is the part the
claims cite.  The enqueue (`process_material`) and line-promotion halves
of the manufacturing agent are outside every claim's scope. -/

/-- A `product_certifications` entry written on a quality-control pass
(manufacturing_agent.py lines 393–398); the dict key
`f"{output_product}_{job_id}"` is modelled by the (product, job-id
counter) pair that determines it. -/
structure Certification where
  qualityStandard : String
  certificationDate : ℚ
  batchId : Nat
  quantity : ℚ
deriving Repr, DecidableEq

/-- A production-job record as built in
`ManufacturingAgent.process_material` (lines 319–335), with the
completion fields added by `run_manufacturing_operations`.  `jobId` is
the numeric counter interpolated into `f"MFG_{self.agent_id}_{...:04d}"`. -/
structure MfgJob where
  jobId : Nat
  recipeName : String
  inputMaterials : List (String × ℚ)
  expectedOutputProduct : String
  expectedOutputQuantity : ℚ
  qualityStandard : String
  productionTimeHours : ℚ
  energyCost : ℚ
  priority : String
  qualityControlLevel : String
  status : String
  startedAt : Option ℚ
  completedAt : Option ℚ
  actualOutputQuantity : Option ℚ
deriving Repr, DecidableEq

/-- The `ManufacturingAgent` state touched by the embedded completion
half. -/
structure MState where
  productionLines : List String
  productionLineStatus : List (String × String)
  rawMaterialInventory : Inv
  finishedGoodsInventory : Inv
  productCertifications : List ((String × Nat) × Certification)
  activeProductionJobs : List MfgJob
  productionQueue : List MfgJob
  productionHistory : List MfgJob
  totalProductsManufactured : ℚ
  manufacturingCosts : ℚ
  qualityControlPasses : Nat
  qualityControlFailures : Nat
deriving Repr, DecidableEq

/-- Source: `success_rate = min(base_rates.get(quality_standard, 0.95) *
qc_multipliers.get(qc_level, 1.0), 0.99)` in `perform_quality_control`. -/
def qcSuccessRate (qualityStandard qcLevel : String) : ℚ :=
  let baseRate :=
    if qualityStandard = "standard" then 95 / 100
    else if qualityStandard = "premium" then 90 / 100
    else if qualityStandard = "industrial_grade" then 98 / 100
    else 95 / 100
  let qcMultiplier :=
    if qcLevel = "basic" then 95 / 100
    else if qcLevel = "standard" then 1
    else if qcLevel = "enhanced" then 105 / 100
    else 1
  min (baseRate * qcMultiplier) (99 / 100)

/-- Source: `ManufacturingAgent.perform_quality_control`: pass iff
`random.random() < success_rate`; the `random.random()` draw is the
explicit `qcDraw` parameter (the `product` argument is unused in the
source body as well). -/
def performQualityControl (product qualityStandard qcLevel : String)
    (qcDraw : ℚ) : Bool :=
  decide (qcDraw < qcSuccessRate qualityStandard qcLevel)

/-- Source: `current_time >= job["started_at"] +
timedelta(hours=job["production_time_hours"])`. -/
def mfgJobFinished (t : ℚ) (j : MfgJob) : Bool :=
  match j.startedAt with
  | some st => st + j.productionTimeHours ≤ t
  | none => false

/-- Completion of one active job in `run_manufacturing_operations`
(lines 373–423): run the quality-control gate; on a pass credit
`expected × uniform(0.97, 1.03)` to finished goods and record a
certification; on a failure credit nothing and mark the job
`quality_control_failed`; either way the job moves to history and its
energy cost is booked.  `draws j` packages the `random.random()` QC draw
and the `uniform(0.97, 1.03)` output draw for job `j`. -/
def mfgCreditJob (t : ℚ) (draws : MfgJob → ℚ × ℚ) (s : MState) (j : MfgJob) :
    MState :=
  let qcSuccess := performQualityControl j.expectedOutputProduct j.qualityStandard
    j.qualityControlLevel (draws j).1
  if qcSuccess then
    let actualOutput := j.expectedOutputQuantity * (draws j).2
    let done :=
      { j with
          status := "completed"
          completedAt := some t
          actualOutputQuantity := some actualOutput }
    { s with
        finishedGoodsInventory :=
          s.finishedGoodsInventory.set j.expectedOutputProduct
            (s.finishedGoodsInventory.getD j.expectedOutputProduct + actualOutput)
        productCertifications :=
          assocSet s.productCertifications (j.expectedOutputProduct, j.jobId)
            { qualityStandard := j.qualityStandard
              certificationDate := t
              batchId := j.jobId
              quantity := actualOutput }
        productionHistory := s.productionHistory ++ [done]
        totalProductsManufactured := s.totalProductsManufactured + actualOutput
        manufacturingCosts := s.manufacturingCosts + j.energyCost
        qualityControlPasses := s.qualityControlPasses + 1 }
  else
    let done :=
      { j with
          status := "quality_control_failed"
          completedAt := some t
          actualOutputQuantity := some 0 }
    { s with
        productionHistory := s.productionHistory ++ [done]
        totalProductsManufactured := s.totalProductsManufactured + 0
        manufacturingCosts := s.manufacturingCosts + j.energyCost
        qualityControlFailures := s.qualityControlFailures + 1 }

/-- First half of `run_manufacturing_operations`: complete every active
job whose simulated duration has elapsed, in insertion order. -/
def mfgCompletionPhase (t : ℚ) (draws : MfgJob → ℚ × ℚ) (s : MState) : MState :=
  (s.activeProductionJobs.filter (mfgJobFinished t)).foldl (mfgCreditJob t draws)
    { s with
        activeProductionJobs :=
          s.activeProductionJobs.filter (fun j => !mfgJobFinished t j) }

/-! ## SupplyChainOrchestrator (src/src/agents/SC_orchestrator.py) -/

/-- One step of a `MaterialTrace.journey_log`.  The heterogeneous
`details` dict is presentation data and is not modelled. -/
structure JourneyStep where
  timestamp : ℚ
  stage : String
  agentId : String
  operation : String
deriving Repr, DecidableEq

/-- The orchestrator's `MaterialTrace` dataclass. -/
structure MaterialTrace where
  traceId : String
  originalMaterial : String
  originalQuantity : ℚ
  currentMaterial : String
  currentQuantity : ℚ
  currentLocation : String
  journeyLog : List JourneyStep
deriving Repr, DecidableEq

/-- Source: `MaterialTrace.add_journey_step`: append to the log and update the
denormalized current location. -/
def addJourneyStep (tr : MaterialTrace) (t : ℚ) (stage agentId operation : String) :
    MaterialTrace :=
  { tr with
      journeyLog := tr.journeyLog ++ [⟨t, stage, agentId, operation⟩]
      currentLocation := agentId }

/-- A pending operator request dict.  The `required_inputs` schema dict
(built by `get_required_inputs`) is UI presentation data and is not
modelled. -/
structure OpRequest where
  requestId : String
  traceId : String
  agentId : String
  agentType : String
  materialType : String
  quantity : ℚ
  status : String
deriving Repr, DecidableEq

/-- Orchestrator state.  The registries and routing tables that the
claims do not touch (manufacturing, distribution, retail agents and
their routing maps, `active_shipments`) are collected in the type
parameter `ρ`. -/
structure OrchState (ρ : Type) where
  miningAgents : List (String × MineState)
  processingAgents : List (String × PState)
  oreToProcessing : List (String × String)
  materialTraces : List (String × MaterialTrace)
  pendingOperatorRequests : List OpRequest
  rest : ρ

/-- Source: `_create_processing_request`: append a pending request addressed by a
fresh uuid (`requestId` parameter). -/
def createProcessingRequest {ρ : Type} (o : OrchState ρ)
    (processingAgentId materialType : String) (quantity : ℚ)
    (traceId requestId : String) : OrchState ρ :=
  { o with
      pendingOperatorRequests := o.pendingOperatorRequests ++
        [{ requestId := requestId
           traceId := traceId
           agentId := processingAgentId
           agentType := "processing"
           materialType := materialType
           quantity := quantity
           status := "pending" }] }

/-- Source: `_auto_route_from_mining`: look up the route, create and dispatch the
shipment at the mine, deliver it to the processing agent, record the
journey step and queue the operator request. -/
def autoRouteFromMining {ρ : Type} (o : OrchState ρ)
    (miningAgentId oreType : String) (quantity : ℚ) (traceId : String)
    (t : ℚ) (requestId : String) (transportTime : ℚ) : OrchState ρ :=
  match assocLookup o.oreToProcessing oreType with
  | none => o
  | some processingAgentId =>
    match assocLookup o.processingAgents processingAgentId,
        assocLookup o.miningAgents miningAgentId with
    | some processor, some mine =>
      let created := createShipmentToProcessing mine oreType quantity processingAgentId
      if created.1 then
        let dispatched := mineProcessShipments created.2 t transportTime
        let o1 := { o with miningAgents := assocSet o.miningAgents miningAgentId dispatched.2 }
        match dispatched.1 with
        | [] => o1
        | sh :: _ =>
          let received := receiveShipmentFromMining processor
            { oreType := sh.oreType, quantity := sh.quantity, oreQuality := sh.oreQuality }
          let o2 := { o1 with
            processingAgents := assocSet o1.processingAgents processingAgentId received.2 }
          if received.1 then
            let o3 :=
              match assocLookup o2.materialTraces traceId with
              | some tr =>
                { o2 with
                    materialTraces := assocSet o2.materialTraces traceId
                      (addJourneyStep tr t "processing" processingAgentId "received") }
              | none => o2
            createProcessingRequest o3 processingAgentId oreType quantity traceId requestId
          else o2
      else { o with miningAgents := assocSet o.miningAgents miningAgentId created.2 }
    | _, _ => o

/-- The two exception kinds `inject_raw_materials` can raise. -/
inductive InjectError where
  | valueError (msg : String)
  | runtimeError (msg : String)
deriving Repr, DecidableEq

/-- Source: `SupplyChainOrchestrator.inject_raw_materials`: extract at the mine,
raise `RuntimeError` unless the extraction status is `"success"`, open a
trace at the *extracted* quantity and auto-route that quantity one hop.
`traceId`/`requestId` stand for the generated uuids; `variability` and
`transportTime` for the `random.uniform` draws inside the callees. -/
def injectRawMaterials {ρ : Type} (o : OrchState ρ)
    (miningAgentId oreType : String) (quantity : ℚ) (t : ℚ)
    (traceId requestId : String) (variability transportTime : ℚ) :
    Except InjectError (String × OrchState ρ) :=
  match assocLookup o.miningAgents miningAgentId with
  | none => .error (.valueError "Mining agent not registered")
  | some mine =>
    let extraction := mineProcessMaterial mine (some oreType) (some quantity) variability
    if extraction.1.status ≠ "success" then .error (.runtimeError "Extraction failed")
    else
      let trace : MaterialTrace :=
        { traceId := traceId
          originalMaterial := oreType
          originalQuantity := extraction.1.extractedQuantity
          currentMaterial := oreType
          currentQuantity := extraction.1.extractedQuantity
          currentLocation := miningAgentId
          journeyLog := [] }
      let trace := addJourneyStep trace t "mining" miningAgentId "extracted"
      let o1 :=
        { o with
            miningAgents := assocSet o.miningAgents miningAgentId extraction.2
            materialTraces := assocSet o.materialTraces traceId trace }
      let o2 := autoRouteFromMining o1 miningAgentId oreType
        extraction.1.extractedQuantity traceId t requestId transportTime
      .ok (traceId, o2)

/-- The shapes `process_operator_request` can return: the two `{"error":
...}` dicts, the `KeyError` of an unregistered agent id, the dispatch to
the manufacturing/retail handlers (which do not exist in
SC_orchestrator.py and would raise `AttributeError`), or the result dict
of the processing agent passed through unchanged. -/
inductive OpResponse where
  | requestNotFound
  | unknownAgentType
  | registryError
  | otherAgentBranch
  | processed (result : PResult)
deriving Repr, DecidableEq

/-- Source: `_process_processing_request`: run the processing agent, on success
run the downstream auto-routing, then remove the request from the
pending list (first list element equal to the request, as `list.remove`)
and return the agent's result unchanged.  `onSuccess` abstracts the
success branch (trace update and `_simulate_processing_completion`,
which touch only registries outside this claim); the theorems below
quantify over every such continuation. -/
def processProcessingRequest {ρ : Type} (o : OrchState ρ) (req : OpRequest)
    (ops : OperatorInputs) (onSuccess : OrchState ρ → PResult → OrchState ρ) :
    OpResponse × OrchState ρ :=
  match assocLookup o.processingAgents req.agentId with
  | none => (.registryError, o)
  | some processor =>
    let r := processMaterial processor req.materialType ops
    let o1 := { o with processingAgents := assocSet o.processingAgents req.agentId r.2 }
    let o2 := if r.1.isSuccess then onSuccess o1 r.1 else o1
    let o3 := { o2 with pendingOperatorRequests := o2.pendingOperatorRequests.erase req }
    (.processed r.1, o3)

/-- Source: `SupplyChainOrchestrator.process_operator_request`: find the first
pending request with the given id and dispatch on its agent type. -/
def processOperatorRequest {ρ : Type} (o : OrchState ρ) (requestId : String)
    (ops : OperatorInputs) (onSuccess : OrchState ρ → PResult → OrchState ρ) :
    OpResponse × OrchState ρ :=
  match o.pendingOperatorRequests.find? (fun r => r.requestId == requestId) with
  | none => (.requestNotFound, o)
  | some req =>
    if req.agentType = "processing" then processProcessingRequest o req ops onSuccess
    else if req.agentType = "manufacturing" ∨ req.agentType = "retail" then
      (.otherAgentBranch, o)
    else (.unknownAgentType, o)

/-- The job-id counter carried by a success result. -/
def PResult.jobIdOf : PResult → Option Nat
  | .success j _ _ _ _ => some j
  | .error _ => none

/-- The sub-list of queued jobs of one priority rank, in queue order. -/
def filterRank (k : Nat) (l : List Job) : List Job :=
  l.filter (fun j => priorityRank j.priority == k)

/-! ## Concrete states (from the demo configurations in the source) -/

/-- The `Phosphorite_to_PG` recipe used throughout the repository's
demos (processing_agent.py lines 421–428). -/
def demoRecipe : Recipe :=
  { inputMaterial := "Phosphorite Ore"
    outputMaterial := "PG"
    conversionRatio := 82 / 100
    processingTimeHours := 1
    energyCostPerTon := 40
    requiredMethod := some "chemical_processing" }

/-- A processing agent with two methods, the demo recipe, and 100 tons of
ore on hand; equipment efficiency pinned at 100 (the constructor draws it
from `uniform(85, 100)`). -/
def demoPState : PState :=
  { processingMethods := ["chemical_processing", "smelting"]
    transformationRecipes := [("Phosphorite_to_PG", demoRecipe)]
    equipmentStatus := [("chemical_processing", "operational"), ("smelting", "operational")]
    equipmentEfficiency := [("chemical_processing", 100), ("smelting", 100)]
    rawMaterialStorage := [("Phosphorite Ore", 100)]
    processedMaterialStorage := []
    materialQualityGrades := []
    activeProcessingJobs := []
    processingQueue := []
    processingHistory := []
    rawStorageCapacity := 375
    totalMaterialsProcessed := 0
    processingCosts := 0 }

/-- Operator inputs at the reference quality target (multiplier 1). -/
def demoOps : OperatorInputs :=
  { selectedRecipe := "Phosphorite_to_PG"
    batchSize := 10
    qualityTarget := 17 / 20
    processingPriority := "normal" }

/-- Operator inputs asking for 60 tons. -/
def demoOps60 : OperatorInputs :=
  { selectedRecipe := "Phosphorite_to_PG"
    batchSize := 60
    qualityTarget := 9 / 10
    processingPriority := "normal" }

/-- Operator inputs naming a recipe the agent does not have. -/
def demoOpsBad : OperatorInputs :=
  { selectedRecipe := "Iron_to_Steel"
    batchSize := 10
    qualityTarget := 17 / 20
    processingPriority := "normal" }

/-- Constant random draws (both `uniform(0.95, 1.05)` results = 1). -/
def demoDraws : Job → ℚ × ℚ := fun _ => (1, 1)

/-- A mine holding 300 tons of extracted ore (scenario of spec §8). -/
def demoMine : MineState :=
  { mineCapacity := 5000
    oreTypes := ["Phosphorite Ore"]
    extractionRate := 500
    equipmentEfficiency := 100
    inventory := [("Phosphorite Ore", 300)]
    oreReserves := [("Phosphorite Ore", 2000)]
    oreQuality := [("Phosphorite Ore", 9 / 10)]
    extractionCosts := [("Phosphorite Ore", 25)]
    pendingShipments := []
    shippedMaterials := []
    currentShiftExtraction := 0
    totalExtracted := 0 }

/-- A distribution center with 80 units on hand and capacity 100. -/
def demoDistSmall : DistState :=
  { capacity := 100
    shippingZones := ["Zone_A"]
    currentInventory := [("PG", 80)]
    pendingShipments := []
    activeShipments := []
    shipmentHistory := []
    totalShipments := 0 }

/-- A distribution center with plenty of stock and capacity. -/
def demoDist : DistState :=
  { capacity := 10000
    shippingZones := ["Zone_A"]
    currentInventory := [("PG", 500)]
    pendingShipments := []
    activeShipments := []
    shipmentHistory := []
    totalShipments := 0 }

/-- An active manufacturing job (premium quality, basic QC, so the QC
pass threshold is 0.90 × 0.95 = 0.855) that started at t = 0 with a
one-hour duration and expects 90 units of output. -/
def demoMfgJob : MfgJob :=
  { jobId := 1
    recipeName := "PG_to_Fertilizer"
    inputMaterials := [("PG", 100)]
    expectedOutputProduct := "Bagged_Fertilizer"
    expectedOutputQuantity := 90
    qualityStandard := "premium"
    productionTimeHours := 1
    energyCost := 1500
    priority := "normal"
    qualityControlLevel := "basic"
    status := "manufacturing"
    startedAt := some 0
    completedAt := none
    actualOutputQuantity := none }

/-- A manufacturing agent with the demo job active and nothing else. -/
def demoMState : MState :=
  { productionLines := ["chemical_production"]
    productionLineStatus := [("chemical_production", "operational")]
    rawMaterialInventory := []
    finishedGoodsInventory := []
    productCertifications := []
    activeProductionJobs := [demoMfgJob]
    productionQueue := []
    productionHistory := []
    totalProductsManufactured := 0
    manufacturingCosts := 0
    qualityControlPasses := 0
    qualityControlFailures := 0 }

/-- A pending processing-type operator request. -/
def demoRequest : OpRequest :=
  { requestId := "REQ_1"
    traceId := "TR_1"
    agentId := "PROC_001"
    agentType := "processing"
    materialType := "Phosphorite Ore"
    quantity := 100
    status := "pending" }

/-- The job the demo enqueue builds. -/
def demoJob : Job := mkProcessingJob demoPState "Phosphorite Ore" demoOps demoRecipe

/-- Enqueue job A (id counter 1). -/
def c2Step1 : PState := (processMaterial demoPState "Phosphorite Ore" demoOps).2

/-- Run at t = 0: job A starts on `chemical_processing`. -/
def c2Step2 : PState := runProcessingOperations c2Step1 0 demoDraws

/-- Enqueue job B while A is active. -/
def c2Step3 : PState := (processMaterial c2Step2 "Phosphorite Ore" demoOps).2

/-- Run at t = 1: A (duration 1) completes, then B starts. -/
def c2Step4 : PState := runProcessingOperations c2Step3 1 demoDraws

/-- Enqueue job C (id counter 2, history now has A). -/
def c2Step5 : PState := (processMaterial c2Step4 "Phosphorite Ore" demoOps).2

/-- Run at t = 3/2: B (finishes at 2) is still active, yet C starts on
the same `chemical_processing` line. -/
def c2Step6 : PState := runProcessingOperations c2Step5 (3 / 2) demoDraws

/-- The demo processing agent after one job has completed (history
length 1). -/
def demoPStateH : PState := { demoPState with processingHistory := [demoJob] }

/-- An orchestrator with the demo mine and processor registered and one
pending processing request. -/
def demoOrch : OrchState Unit :=
  { miningAgents := [("MINE_001", demoMine)]
    processingAgents := [("PROC_001", demoPState)]
    oreToProcessing := [("Phosphorite Ore", "PROC_001")]
    materialTraces := []
    pendingOperatorRequests := [demoRequest]
    rest := () }

/-! ## Shared lemmas -/

/-- Unfolding of `process_material` when all three validations pass. -/
theorem processMaterial_success (s : PState) (mat : String) (ops : OperatorInputs)
    (recipe : Recipe)
    (hrec : assocLookup s.transformationRecipes ops.selectedRecipe = some recipe)
    (hav : ops.batchSize ≤ s.rawMaterialStorage.getD mat)
    (heq : equipOk s recipe = true) :
    processMaterial s mat ops =
      (.success (mkProcessingJob s mat ops recipe).jobId
         (sortQueue (s.processingQueue ++ [mkProcessingJob s mat ops recipe])).length
         (mkProcessingJob s mat ops recipe).expectedOutputMaterial
         (mkProcessingJob s mat ops recipe).expectedOutputQuantity ops.qualityTarget,
       { s with
          rawMaterialStorage :=
            s.rawMaterialStorage.set mat (s.rawMaterialStorage.getD mat - ops.batchSize)
          processingQueue := sortQueue (s.processingQueue ++ [mkProcessingJob s mat ops recipe]) }) := by
  simp only [processMaterial, hrec, not_lt.mpr hav, if_false, heq, Bool.not_true,
    Bool.false_eq_true, mkProcessingJob]

/-- C1: Enqueuing a processing job reserves the input at enqueue time:
the raw storage of the input material drops by the full batch size the
moment the job is queued, and a second back-to-back enqueue whose batch
size no longer fits the remaining stock returns the insufficient-stock
error and leaves the agent state (queue included) unchanged. -/
theorem enqueue_reserves_input_and_blocks_second_job (s : PState) (mat : String)
    (ops1 ops2 : OperatorInputs) (recipe1 recipe2 : Recipe)
    (hrec1 : assocLookup s.transformationRecipes ops1.selectedRecipe = some recipe1)
    (hav1 : ops1.batchSize ≤ s.rawMaterialStorage.getD mat)
    (heq1 : equipOk s recipe1 = true)
    (hrec2 : assocLookup s.transformationRecipes ops2.selectedRecipe = some recipe2)
    (hsum : s.rawMaterialStorage.getD mat < ops1.batchSize + ops2.batchSize) :
    (processMaterial s mat ops1).1.isSuccess = true ∧
    ((processMaterial s mat ops1).2).rawMaterialStorage.getD mat
      = s.rawMaterialStorage.getD mat - ops1.batchSize ∧
    processMaterial ((processMaterial s mat ops1).2) mat ops2
      = (.error "insufficient_material", (processMaterial s mat ops1).2) := by
  rw [processMaterial_success s mat ops1 recipe1 hrec1 hav1 heq1]
  refine ⟨rfl, ?_, ?_⟩
  · exact Inv.getD_set_self _ _ _
  · have hlt : (Inv.set s.rawMaterialStorage mat
        (s.rawMaterialStorage.getD mat - ops1.batchSize)).getD mat < ops2.batchSize := by
      rw [Inv.getD_set_self]
      linarith
    simp [processMaterial, hrec2, hlt]

/-- C6: The enqueued job's parameters: expected output equals
`batch_size × conversion_ratio × equipment_efficiency`, effective
duration equals `processing_time_hours × (quality_target / 0.85)`, the
recorded energy cost equals
`energy_cost_per_ton × (quality_target / 0.85) × batch_size`, and the
enqueue touches no storage besides subtracting the batch from the input
material's raw storage. -/
theorem enqueue_output_duration_cost (s : PState) (mat : String)
    (ops : OperatorInputs) (recipe : Recipe)
    (hrec : assocLookup s.transformationRecipes ops.selectedRecipe = some recipe)
    (hav : ops.batchSize ≤ s.rawMaterialStorage.getD mat)
    (heq : equipOk s recipe = true) :
    (processMaterial s mat ops).1.isSuccess = true ∧
    (mkProcessingJob s mat ops recipe).expectedOutputQuantity
      = ops.batchSize * recipe.conversionRatio * effOf s recipe.requiredMethod ∧
    (mkProcessingJob s mat ops recipe).processingTimeHours
      = recipe.processingTimeHours * (ops.qualityTarget / (85 / 100)) ∧
    (mkProcessingJob s mat ops recipe).energyCost
      = recipe.energyCostPerTon * (ops.qualityTarget / (85 / 100)) * ops.batchSize ∧
    ((processMaterial s mat ops).2).rawMaterialStorage
      = s.rawMaterialStorage.set mat (s.rawMaterialStorage.getD mat - ops.batchSize) ∧
    ((processMaterial s mat ops).2).processedMaterialStorage
      = s.processedMaterialStorage ∧
    ((processMaterial s mat ops).2).processingQueue
      = sortQueue (s.processingQueue ++ [mkProcessingJob s mat ops recipe]) := by
  rw [processMaterial_success s mat ops recipe hrec hav heq]
  refine ⟨rfl, ?_, ?_, ?_, rfl, rfl, rfl⟩
  · simp [mkProcessingJob, mul_assoc]
  · simp [mkProcessingJob, qualityRef]
  · simp [mkProcessingJob, qualityRef]

/-- Witness for C1 at the demo state: 60-ton batches against 100 tons of
ore; the first enqueue succeeds and reserves, the second fails. -/
theorem enqueue_reserves_input_and_blocks_second_job_witness :
    (assocLookup demoPState.transformationRecipes demoOps60.selectedRecipe = some demoRecipe
      ∧ demoOps60.batchSize ≤ demoPState.rawMaterialStorage.getD "Phosphorite Ore"
      ∧ equipOk demoPState demoRecipe = true
      ∧ demoPState.rawMaterialStorage.getD "Phosphorite Ore"
          < demoOps60.batchSize + demoOps60.batchSize)
    ∧ ((processMaterial demoPState "Phosphorite Ore" demoOps60).1.isSuccess = true
      ∧ ((processMaterial demoPState "Phosphorite Ore" demoOps60).2).rawMaterialStorage.getD
            "Phosphorite Ore"
          = demoPState.rawMaterialStorage.getD "Phosphorite Ore" - demoOps60.batchSize
      ∧ processMaterial ((processMaterial demoPState "Phosphorite Ore" demoOps60).2)
            "Phosphorite Ore" demoOps60
          = (.error "insufficient_material",
             (processMaterial demoPState "Phosphorite Ore" demoOps60).2)) :=
  ⟨⟨by rfl, by norm_num [demoPState, demoOps60, Inv.getD, assocLookup], by rfl,
    by norm_num [demoPState, demoOps60, Inv.getD, assocLookup]⟩,
   enqueue_reserves_input_and_blocks_second_job demoPState "Phosphorite Ore"
     demoOps60 demoOps60 demoRecipe demoRecipe (by rfl)
     (by norm_num [demoPState, demoOps60, Inv.getD, assocLookup]) (by rfl) (by rfl)
     (by norm_num [demoPState, demoOps60, Inv.getD, assocLookup])⟩

/-- Witness for C6 at the demo state. -/
theorem enqueue_output_duration_cost_witness :
    (assocLookup demoPState.transformationRecipes demoOps60.selectedRecipe = some demoRecipe
      ∧ demoOps60.batchSize ≤ demoPState.rawMaterialStorage.getD "Phosphorite Ore"
      ∧ equipOk demoPState demoRecipe = true)
    ∧ ((processMaterial demoPState "Phosphorite Ore" demoOps60).1.isSuccess = true
      ∧ (mkProcessingJob demoPState "Phosphorite Ore" demoOps60 demoRecipe).expectedOutputQuantity
          = demoOps60.batchSize * demoRecipe.conversionRatio
              * effOf demoPState demoRecipe.requiredMethod
      ∧ (mkProcessingJob demoPState "Phosphorite Ore" demoOps60 demoRecipe).processingTimeHours
          = demoRecipe.processingTimeHours * (demoOps60.qualityTarget / (85 / 100))
      ∧ (mkProcessingJob demoPState "Phosphorite Ore" demoOps60 demoRecipe).energyCost
          = demoRecipe.energyCostPerTon * (demoOps60.qualityTarget / (85 / 100))
              * demoOps60.batchSize
      ∧ ((processMaterial demoPState "Phosphorite Ore" demoOps60).2).rawMaterialStorage
          = demoPState.rawMaterialStorage.set "Phosphorite Ore"
              (demoPState.rawMaterialStorage.getD "Phosphorite Ore" - demoOps60.batchSize)
      ∧ ((processMaterial demoPState "Phosphorite Ore" demoOps60).2).processedMaterialStorage
          = demoPState.processedMaterialStorage
      ∧ ((processMaterial demoPState "Phosphorite Ore" demoOps60).2).processingQueue
          = sortQueue (demoPState.processingQueue
              ++ [mkProcessingJob demoPState "Phosphorite Ore" demoOps60 demoRecipe])) :=
  ⟨⟨by rfl, by norm_num [demoPState, demoOps60, Inv.getD, assocLookup], by rfl⟩,
   enqueue_output_duration_cost demoPState "Phosphorite Ore" demoOps60 demoRecipe
     (by rfl) (by norm_num [demoPState, demoOps60, Inv.getD, assocLookup]) (by rfl)⟩

/-- C5 counterexample: two processing jobs enqueued back-to-back (no
completion in between) both receive job-id counter 1, and a distribution
shipping order created after a dispatch cleared the pending queue reuses
order-id counter 1 already carried by the dispatched shipment in the
history. -/
theorem job_and_order_id_collision :
    ((processMaterial ((processMaterial demoPState "Phosphorite Ore" demoOps).2)
        "Phosphorite Ore" demoOps).2).processingQueue.map Job.jobId = [1, 1]
    ∧ ((distProcessShipments ((createShippingOrder demoDist "PG" 100 "Customer A"
          "Zone_A").2) 0).2).shipmentHistory.map Order.orderId = [1]
    ∧ ((createShippingOrder ((distProcessShipments ((createShippingOrder demoDist
          "PG" 100 "Customer A" "Zone_A").2) 0).2) "PG" 50 "Customer B"
          "Zone_A").2).pendingShipments.map (fun kv => kv.2.orderId) = [1] := by
  refine ⟨?_, ?_, ?_⟩ <;>
    norm_num [processMaterial, mkProcessingJob, demoPState, demoOps, demoRecipe,
      Inv.getD, Inv.set, assocLookup, assocSet, equipOk, effOf, sortQueue, insertJob,
      priorityRank, qualityRef, createShippingOrder, distProcessShipments, demoDist,
      routeForZone, Inv.total]

/-- C5 as amended: identifiers are counters, not lifetime-unique ids.  A
successfully enqueued job's id counter equals the completed-history
length + 1, so jobs enqueued at different history lengths (i.e. separated
by at least one completion) get distinct ids; a successfully created
shipping order is stored under id counter `len(pending) + 1`. -/
theorem id_counters_from_history_and_pending (s s' : PState) (mat mat' : String)
    (ops ops' : OperatorInputs) (recipe recipe' : Recipe)
    (hrec : assocLookup s.transformationRecipes ops.selectedRecipe = some recipe)
    (hav : ops.batchSize ≤ s.rawMaterialStorage.getD mat)
    (heq : equipOk s recipe = true)
    (hrec' : assocLookup s'.transformationRecipes ops'.selectedRecipe = some recipe')
    (hav' : ops'.batchSize ≤ s'.rawMaterialStorage.getD mat')
    (heq' : equipOk s' recipe' = true)
    (d : DistState) (m : String) (q : ℚ) (dest zone : String)
    (hstock : q ≤ d.currentInventory.getD m)
    (hzone : zone ∈ d.shippingZones) :
    (processMaterial s mat ops).1.jobIdOf = some (s.processingHistory.length + 1)
    ∧ (s.processingHistory.length ≠ s'.processingHistory.length →
        (processMaterial s mat ops).1.jobIdOf ≠ (processMaterial s' mat' ops').1.jobIdOf)
    ∧ (createShippingOrder d m q dest zone).1 = true
    ∧ ∃ ord, assocLookup ((createShippingOrder d m q dest zone).2).pendingShipments
          (d.pendingShipments.length + 1) = some ord
        ∧ ord.orderId = d.pendingShipments.length + 1 := by
  have h1 : (processMaterial s mat ops).1.jobIdOf
      = some (s.processingHistory.length + 1) := by
    rw [processMaterial_success s mat ops recipe hrec hav heq]
    simp [PResult.jobIdOf, mkProcessingJob]
  have h1' : (processMaterial s' mat' ops').1.jobIdOf
      = some (s'.processingHistory.length + 1) := by
    rw [processMaterial_success s' mat' ops' recipe' hrec' hav' heq']
    simp [PResult.jobIdOf, mkProcessingJob]
  refine ⟨h1, ?_, ?_, ?_⟩
  · intro hne
    rw [h1, h1']
    simp
    omega
  · simp [createShippingOrder, not_lt.mpr hstock, hzone]
  · simp only [createShippingOrder, not_lt.mpr hstock, if_false, hzone,
      not_true_eq_false]
    exact ⟨_, assocLookup_assocSet_self _ _ _, rfl⟩

/-- Witness for the amended C5 at the demo states (history lengths 0 vs 1). -/
theorem id_counters_from_history_and_pending_witness :
    (assocLookup demoPState.transformationRecipes demoOps.selectedRecipe = some demoRecipe
      ∧ demoOps.batchSize ≤ demoPState.rawMaterialStorage.getD "Phosphorite Ore"
      ∧ equipOk demoPState demoRecipe = true
      ∧ assocLookup demoPStateH.transformationRecipes demoOps.selectedRecipe = some demoRecipe
      ∧ demoOps.batchSize ≤ demoPStateH.rawMaterialStorage.getD "Phosphorite Ore"
      ∧ equipOk demoPStateH demoRecipe = true
      ∧ (100 : ℚ) ≤ demoDist.currentInventory.getD "PG"
      ∧ "Zone_A" ∈ demoDist.shippingZones)
    ∧ ((processMaterial demoPState "Phosphorite Ore" demoOps).1.jobIdOf
          = some (demoPState.processingHistory.length + 1)
      ∧ (demoPState.processingHistory.length ≠ demoPStateH.processingHistory.length →
          (processMaterial demoPState "Phosphorite Ore" demoOps).1.jobIdOf
            ≠ (processMaterial demoPStateH "Phosphorite Ore" demoOps).1.jobIdOf)
      ∧ (createShippingOrder demoDist "PG" 100 "Customer A" "Zone_A").1 = true
      ∧ ∃ ord, assocLookup ((createShippingOrder demoDist "PG" 100 "Customer A"
            "Zone_A").2).pendingShipments (demoDist.pendingShipments.length + 1) = some ord
          ∧ ord.orderId = demoDist.pendingShipments.length + 1) :=
  ⟨⟨by rfl, by norm_num [demoPState, demoOps, Inv.getD, assocLookup], by rfl,
    by rfl, by norm_num [demoPStateH, demoPState, demoOps, Inv.getD, assocLookup],
    by rfl, by norm_num [demoDist, Inv.getD, assocLookup], by decide⟩,
   id_counters_from_history_and_pending demoPState demoPStateH "Phosphorite Ore"
     "Phosphorite Ore" demoOps demoOps demoRecipe demoRecipe (by rfl)
     (by norm_num [demoPState, demoOps, Inv.getD, assocLookup]) (by rfl) (by rfl)
     (by norm_num [demoPStateH, demoPState, demoOps, Inv.getD, assocLookup]) (by rfl)
     demoDist "PG" 100 "Customer A" "Zone_A"
     (by norm_num [demoDist, Inv.getD, assocLookup]) (by decide)⟩

theorem filterRank_insertJob (j : Job) (l : List Job) (k : Nat) :
    filterRank k (insertJob j l) =
      if priorityRank j.priority = k then j :: filterRank k l else filterRank k l := by
  induction l with
  | nil => by_cases h : priorityRank j.priority = k <;> simp [insertJob, filterRank, h]
  | cons x xs ih =>
    by_cases h : priorityRank j.priority ≤ priorityRank x.priority
    · rw [insertJob, if_pos h]
      by_cases hk : priorityRank j.priority = k <;>
        simp [filterRank, List.filter_cons, hk]
    · rw [insertJob, if_neg h]
      have hx : priorityRank x.priority < priorityRank j.priority := lt_of_not_le h
      simp only [filterRank, List.filter_cons] at ih ⊢
      simp only [ih]
      by_cases hk : priorityRank j.priority = k
      · have hxk : (priorityRank x.priority == k) = false := by
          simp
          omega
        simp [hk, hxk]
      · simp [hk]

theorem filterRank_sortQueue (k : Nat) (l : List Job) :
    filterRank k (sortQueue l) = filterRank k l := by
  induction l with
  | nil => rfl
  | cons x xs ih =>
    rw [sortQueue, filterRank_insertJob]
    by_cases hk : priorityRank x.priority = k <;>
      simp [filterRank, List.filter_cons, hk, ih] at ih ⊢ <;> exact ih

theorem mem_insertJob (y j : Job) (l : List Job) :
    y ∈ insertJob j l ↔ y = j ∨ y ∈ l := by
  induction l with
  | nil => simp [insertJob]
  | cons x xs ih =>
    by_cases h : priorityRank j.priority ≤ priorityRank x.priority
    · simp [insertJob, h, List.mem_cons]
    · simp only [insertJob, if_neg h, List.mem_cons, ih]
      tauto

theorem pairwise_insertJob (j : Job) (l : List Job)
    (hl : l.Pairwise (fun a b => priorityRank a.priority ≤ priorityRank b.priority)) :
    (insertJob j l).Pairwise
      (fun a b => priorityRank a.priority ≤ priorityRank b.priority) := by
  induction l with
  | nil => simp [insertJob]
  | cons x xs ih =>
    rcases List.pairwise_cons.mp hl with ⟨hx, hxs⟩
    by_cases h : priorityRank j.priority ≤ priorityRank x.priority
    · rw [insertJob, if_pos h]
      refine List.pairwise_cons.mpr ⟨?_, hl⟩
      intro y hy
      rcases List.mem_cons.mp hy with hy | hy
      · exact hy ▸ h
      · exact le_trans h (hx y hy)
    · rw [insertJob, if_neg h]
      refine List.pairwise_cons.mpr ⟨?_, ih hxs⟩
      intro y hy
      rcases (mem_insertJob y j xs).mp hy with hy | hy
      · exact hy ▸ le_of_lt (lt_of_not_le h)
      · exact hx y hy

theorem pairwise_sortQueue (l : List Job) :
    (sortQueue l).Pairwise
      (fun a b => priorityRank a.priority ≤ priorityRank b.priority) := by
  induction l with
  | nil => simp [sortQueue]
  | cons x xs ih => exact pairwise_insertJob x (sortQueue xs) ih

theorem startLoop_take_drop (s : PState) (maxJobs : Nat) (t : ℚ)
    (active queue : List Job) :
    ∃ n, startLoop s maxJobs t active queue
      = (active ++ ((queue.take n).map (startedJob t)), queue.drop n) := by
  induction queue generalizing active with
  | nil => exact ⟨0, by simp [startLoop]⟩
  | cons j rest ih =>
    by_cases h1 : active.length < maxJobs
    · by_cases h2 : canStart s active j = true
      · obtain ⟨n, hn⟩ := ih (active ++ [startedJob t j])
        refine ⟨n + 1, ?_⟩
        simp [startLoop, h1, h2, hn, List.take_succ_cons, List.drop_succ_cons,
          List.append_assoc]
      · exact ⟨0, by simp [startLoop, h1, h2]⟩
    · exact ⟨0, by simp [startLoop, h1]⟩

theorem startLoop_head_blocked (s : PState) (maxJobs : Nat) (t : ℚ)
    (active : List Job) (j : Job) (rest : List Job)
    (h : canStart s active j = false) :
    startLoop s maxJobs t active (j :: rest) = (active, j :: rest) := by
  by_cases h1 : active.length < maxJobs <;> simp [startLoop, h1, h]

/-- C8: After a successful enqueue the queue is sorted by priority class
(urgent before normal before batch) and, within a class, keeps the
enqueue (FIFO) order of the old queue plus the appended job; the
promotion loop takes jobs strictly from the front of that queue, so the
jobs started in one call are exactly an initial segment of the queue,
and when the head job cannot start (its line busy or non-operational)
nothing later in the queue is started in that call. -/
theorem queue_priority_fifo_and_no_skip_ahead (s : PState) (mat : String)
    (ops : OperatorInputs) (recipe : Recipe)
    (hrec : assocLookup s.transformationRecipes ops.selectedRecipe = some recipe)
    (hav : ops.batchSize ≤ s.rawMaterialStorage.getD mat)
    (heq : equipOk s recipe = true)
    (s2 : PState) (maxJobs : Nat) (t : ℚ) (active : List Job) (j : Job)
    (rest : List Job) :
    ((processMaterial s mat ops).2).processingQueue.Pairwise
        (fun a b => priorityRank a.priority ≤ priorityRank b.priority)
    ∧ (∀ k : Nat, filterRank k ((processMaterial s mat ops).2).processingQueue
        = filterRank k (s.processingQueue ++ [mkProcessingJob s mat ops recipe]))
    ∧ (∃ n, startLoop s2 maxJobs t active (j :: rest)
        = (active ++ (((j :: rest).take n).map (startedJob t)), (j :: rest).drop n))
    ∧ (canStart s2 active j = false →
        startLoop s2 maxJobs t active (j :: rest) = (active, j :: rest)) := by
  rw [processMaterial_success s mat ops recipe hrec hav heq]
  exact ⟨pairwise_sortQueue _, fun k => filterRank_sortQueue k _,
    startLoop_take_drop s2 maxJobs t active (j :: rest),
    startLoop_head_blocked s2 maxJobs t active j rest⟩

/-- Witness for C8 at the demo state. -/
theorem queue_priority_fifo_and_no_skip_ahead_witness :
    (assocLookup demoPState.transformationRecipes demoOps.selectedRecipe = some demoRecipe
      ∧ demoOps.batchSize ≤ demoPState.rawMaterialStorage.getD "Phosphorite Ore"
      ∧ equipOk demoPState demoRecipe = true)
    ∧ (((processMaterial demoPState "Phosphorite Ore" demoOps).2).processingQueue.Pairwise
          (fun a b => priorityRank a.priority ≤ priorityRank b.priority)
      ∧ (∀ k : Nat, filterRank k ((processMaterial demoPState "Phosphorite Ore"
            demoOps).2).processingQueue
          = filterRank k (demoPState.processingQueue
              ++ [mkProcessingJob demoPState "Phosphorite Ore" demoOps demoRecipe]))
      ∧ (∃ n, startLoop demoPState 2 0 [] [demoJob]
          = ([] ++ (([demoJob].take n).map (startedJob 0)), [demoJob].drop n))
      ∧ (canStart demoPState [] demoJob = false →
          startLoop demoPState 2 0 [] [demoJob] = ([], [demoJob]))) :=
  ⟨⟨by rfl, by norm_num [demoPState, demoOps, Inv.getD, assocLookup], by rfl⟩,
   queue_priority_fifo_and_no_skip_ahead demoPState "Phosphorite Ore" demoOps
     demoRecipe (by rfl) (by norm_num [demoPState, demoOps, Inv.getD, assocLookup])
     (by rfl) demoPState 2 0 [] demoJob []⟩

/-- C2: the `equipment_busy` test in `run_processing_operations` reads
`job.get("required_method")` on active-job records that never carry that
key, so it never detects a busy line: after the demo sequence, jobs B
(id 1) and C (id 2) are simultaneously active although both their
recipes require the `chemical_processing` line. -/
theorem two_active_jobs_share_equipment_line :
    c2Step6.activeProcessingJobs.map (fun j => recipeRequiredMethod c2Step6 j)
      = [some "chemical_processing", some "chemical_processing"]
    ∧ c2Step6.activeProcessingJobs.map Job.status = ["processing", "processing"]
    ∧ c2Step6.activeProcessingJobs.map Job.jobId = [1, 2] := by
  norm_num [c2Step6, c2Step5, c2Step4, c2Step3, c2Step2, c2Step1,
    runProcessingOperations, completionPhase, creditJob, startLoop, canStart,
    equipmentBusy, jobGetRequiredMethod, recipeRequiredMethod, jobFinished,
    startedJob, processMaterial, mkProcessingJob, demoPState, demoOps, demoRecipe,
    demoDraws, Inv.getD, Inv.set, Inv.total, assocLookup, assocSet, equipOk, effOf,
    sortQueue, insertJob, priorityRank, qualityRef]

/-- C3 counterexample: a distribution center with 80 of 100 capacity
used receives 50 more — `process_material` stores the full 130 units,
past the capacity of 100, and then raises `AttributeError` from the
capacity warning (its f-string reads the never-assigned
`self.warehouse_capacity`); the excess is neither clipped nor rejected,
so material is stored past capacity. -/
theorem distribution_receipt_exceeds_capacity :
    ((distProcessMaterial demoDistSmall "PG" 50).2).currentInventory.total = 130
    ∧ demoDistSmall.capacity = 100
    ∧ demoDistSmall.capacity
        < ((distProcessMaterial demoDistSmall "PG" 50).2).currentInventory.total
    ∧ (distProcessMaterial demoDistSmall "PG" 50).1
        = .error "AttributeError: warehouse_capacity" := by
  refine ⟨?_, rfl, ?_, ?_⟩ <;>
    norm_num [distProcessMaterial, demoDistSmall, Inv.set, Inv.getD, Inv.total,
      assocSet, assocLookup]

/-- C3 as amended: the mining agent clips extraction to its remaining
storage capacity and the processing agent clips receipts to its
raw-storage allocation, so those inventories never exceed their bounds;
the distribution agent, however, stores any received quantity in full
before its capacity check, and a receipt pushing the total past 90% of
capacity then raises `AttributeError` (the warning reads the
never-assigned `self.warehouse_capacity`), leaving the inventory stored
past capacity — the excess is neither clipped nor rejected. -/
theorem mining_and_processing_preserve_capacity (mine : MineState)
    (material : Option String) (q : Option ℚ) (variability : ℚ)
    (hcap : mine.inventory.total ≤ mine.mineCapacity)
    (s : PState) (sh : MiningShipmentData)
    (hraw : s.rawMaterialStorage.total ≤ s.rawStorageCapacity) :
    ((mineProcessMaterial mine material q variability).2).inventory.total
        ≤ mine.mineCapacity
    ∧ ((receiveShipmentFromMining s sh).2).rawMaterialStorage.total
        ≤ s.rawStorageCapacity := by
  constructor
  · unfold mineProcessMaterial
    dsimp only
    rw [apply_ite (fun st : MineState => st.inventory.total)]
    dsimp only
    split_ifs <;>
      first
        | exact hcap
        | (rw [Inv.total_set]; linarith)
  · unfold receiveShipmentFromMining
    dsimp only
    split_ifs with h1 h2 h3
    · exact hraw
    · exact hraw
    · dsimp only
      rw [Inv.total_set]
      linarith
    · dsimp only
      rw [Inv.total_set]
      linarith

/-- Witness for the amended C3 at the demo states. -/
theorem mining_and_processing_preserve_capacity_witness :
    (demoMine.inventory.total ≤ demoMine.mineCapacity
      ∧ demoPState.rawMaterialStorage.total ≤ demoPState.rawStorageCapacity)
    ∧ (((mineProcessMaterial demoMine (some "Phosphorite Ore") (some 300) 1).2).inventory.total
          ≤ demoMine.mineCapacity
      ∧ ((receiveShipmentFromMining demoPState
            { oreType := "Phosphorite Ore", quantity := 200, oreQuality := 9 / 10 }).2).rawMaterialStorage.total
          ≤ demoPState.rawStorageCapacity) :=
  ⟨⟨by norm_num [demoMine, Inv.total], by norm_num [demoPState, Inv.total]⟩,
   mining_and_processing_preserve_capacity demoMine (some "Phosphorite Ore")
     (some 300) 1 (by norm_num [demoMine, Inv.total]) demoPState
     { oreType := "Phosphorite Ore", quantity := 200, oreQuality := 9 / 10 }
     (by norm_num [demoPState, Inv.total])⟩

/-- C4: Conservation across a shipment.  At creation the origin mine's
inventory of the shipped ore drops by exactly the shipment quantity
(the receive routine never touches the origin, so a later rejection
cannot refund it), and on receipt the destination's raw storage of that
ore rises by exactly `min(quantity, headroom)` where headroom is the
raw-storage allocation minus current stock. -/
theorem shipment_conservation (mine : MineState) (ore : String) (q : ℚ)
    (dest : String)
    (hstock : q ≤ mine.inventory.getD ore) (hore : ore ∈ mine.oreTypes)
    (s : PState) (sh : MiningShipmentData)
    (hcan : s.transformationRecipes.any (fun kv => kv.2.inputMaterial = sh.oreType) = true)
    (hraw : s.rawMaterialStorage.total ≤ s.rawStorageCapacity) :
    (createShipmentToProcessing mine ore q dest).1 = true
    ∧ ((createShipmentToProcessing mine ore q dest).2).inventory.getD ore
        = mine.inventory.getD ore - q
    ∧ ((createShipmentToProcessing mine ore q dest).2).inventory.total
        = mine.inventory.total - q
    ∧ ((createShipmentToProcessing mine ore q dest).2).pendingShipments.map
          Shipment.quantity
        = mine.pendingShipments.map Shipment.quantity ++ [q]
    ∧ ((receiveShipmentFromMining s sh).2).rawMaterialStorage.getD sh.oreType
        = s.rawMaterialStorage.getD sh.oreType
          + min sh.quantity (s.rawStorageCapacity - s.rawMaterialStorage.total)
    ∧ ((receiveShipmentFromMining s sh).2).rawMaterialStorage.total
        = s.rawMaterialStorage.total
          + min sh.quantity (s.rawStorageCapacity - s.rawMaterialStorage.total) := by
  have hnotlt : ¬ mine.inventory.getD ore < q := not_lt.mpr hstock
  refine ⟨?_, ?_, ?_, ?_, ?_, ?_⟩
  · simp [createShipmentToProcessing, hnotlt, hore]
  · simp only [createShipmentToProcessing, if_neg hnotlt]
    simp [hore, Inv.getD_set_self]
  · simp only [createShipmentToProcessing, if_neg hnotlt]
    simp only [hore, not_true_eq_false, if_false]
    rw [Inv.total_set]
    ring
  · simp [createShipmentToProcessing, hnotlt, hore]
  · simp only [receiveShipmentFromMining, hcan, Bool.not_true, Bool.false_eq_true,
      if_false]
    split_ifs with h1 h2
    · have hzero : s.rawStorageCapacity - s.rawMaterialStorage.total = 0 := by
        linarith
      have hq : (0 : ℚ) ≤ sh.quantity := by linarith
      simp [hzero, min_eq_right hq]
    · have hle : s.rawStorageCapacity - s.rawMaterialStorage.total ≤ sh.quantity := by
        linarith
      simp [Inv.getD_set_self, min_eq_right hle]
    · have hle : sh.quantity ≤ s.rawStorageCapacity - s.rawMaterialStorage.total := by
        linarith
      simp [Inv.getD_set_self, min_eq_left hle]
  · simp only [receiveShipmentFromMining, hcan, Bool.not_true, Bool.false_eq_true,
      if_false]
    split_ifs with h1 h2
    · have hzero : s.rawStorageCapacity - s.rawMaterialStorage.total = 0 := by
        linarith
      have hq : (0 : ℚ) ≤ sh.quantity := by linarith
      simp [hzero, min_eq_right hq]
    · have hle : s.rawStorageCapacity - s.rawMaterialStorage.total ≤ sh.quantity := by
        linarith
      rw [min_eq_right hle]
      dsimp only
      rw [Inv.total_set]
      ring
    · have hle : sh.quantity ≤ s.rawStorageCapacity - s.rawMaterialStorage.total := by
        linarith
      rw [min_eq_left hle]
      dsimp only
      rw [Inv.total_set]
      ring

/-- Witness for C4: 200 of 300 tons shipped out of the demo mine and the
same 200 tons received by the demo processor (headroom 275). -/
theorem shipment_conservation_witness :
    ((200 : ℚ) ≤ demoMine.inventory.getD "Phosphorite Ore"
      ∧ "Phosphorite Ore" ∈ demoMine.oreTypes
      ∧ demoPState.transformationRecipes.any
          (fun kv => kv.2.inputMaterial = "Phosphorite Ore") = true
      ∧ demoPState.rawMaterialStorage.total ≤ demoPState.rawStorageCapacity)
    ∧ ((createShipmentToProcessing demoMine "Phosphorite Ore" 200 "PROC_001").1 = true
      ∧ ((createShipmentToProcessing demoMine "Phosphorite Ore" 200
            "PROC_001").2).inventory.getD "Phosphorite Ore"
          = demoMine.inventory.getD "Phosphorite Ore" - 200
      ∧ ((createShipmentToProcessing demoMine "Phosphorite Ore" 200
            "PROC_001").2).inventory.total = demoMine.inventory.total - 200
      ∧ ((createShipmentToProcessing demoMine "Phosphorite Ore" 200
            "PROC_001").2).pendingShipments.map Shipment.quantity
          = demoMine.pendingShipments.map Shipment.quantity ++ [200]
      ∧ ((receiveShipmentFromMining demoPState
            { oreType := "Phosphorite Ore", quantity := 200,
              oreQuality := 9 / 10 }).2).rawMaterialStorage.getD "Phosphorite Ore"
          = demoPState.rawMaterialStorage.getD "Phosphorite Ore"
            + min (200 : ℚ)
                (demoPState.rawStorageCapacity - demoPState.rawMaterialStorage.total)
      ∧ ((receiveShipmentFromMining demoPState
            { oreType := "Phosphorite Ore", quantity := 200,
              oreQuality := 9 / 10 }).2).rawMaterialStorage.total
          = demoPState.rawMaterialStorage.total
            + min (200 : ℚ)
                (demoPState.rawStorageCapacity - demoPState.rawMaterialStorage.total)) :=
  ⟨⟨by norm_num [demoMine, Inv.getD, assocLookup], by decide, by rfl,
    by norm_num [demoPState, Inv.total]⟩,
   shipment_conservation demoMine "Phosphorite Ore" 200 "PROC_001"
     (by norm_num [demoMine, Inv.getD, assocLookup]) (by decide) demoPState
     { oreType := "Phosphorite Ore", quantity := 200, oreQuality := 9 / 10 }
     (by rfl) (by norm_num [demoPState, Inv.total])⟩

/-- A multiplicative draw within `c` of 1 keeps the product within a
`c`-band of the base quantity. -/
theorem band_of_draw (E r c : ℚ) (hE : 0 ≤ E) (h1 : 1 - c ≤ r) (h2 : r ≤ 1 + c) :
    |E * r - E| ≤ c * E := by
  have habs : |r - 1| ≤ c := abs_le.mpr ⟨by linarith, by linarith⟩
  calc |E * r - E| = |E * (r - 1)| := by
        congr 1
        ring
    _ = E * |r - 1| := by rw [abs_mul, abs_of_nonneg hE]
    _ ≤ E * c := mul_le_mul_of_nonneg_left habs hE
    _ = c * E := mul_comm _ _

/-- C7 counterexample: a manufacturing job that completes but fails
quality control (premium/basic gives pass threshold 0.855; the
`random.random()` draw is 0.9) is credited zero output — outside any
±3–5% band around its expected 90 units — while the run marks it
`quality_control_failed` and moves it to history. -/
theorem qc_failed_completion_outside_band :
    ((mfgCompletionPhase 2 (fun _ => (9 / 10, 1)) demoMState).productionHistory.map
        (fun j => (j.status, j.actualOutputQuantity)))
      = [("quality_control_failed", some 0)]
    ∧ (mfgCompletionPhase 2 (fun _ => (9 / 10, 1))
        demoMState).finishedGoodsInventory.getD "Bagged_Fertilizer" = 0
    ∧ demoMfgJob.expectedOutputQuantity = 90
    ∧ ¬ |(0 : ℚ) - demoMfgJob.expectedOutputQuantity|
          ≤ (5 / 100) * demoMfgJob.expectedOutputQuantity := by
  have habs : |(0 : ℚ) - 90| = 90 := by
    rw [zero_sub, abs_neg]
    norm_num
  have hne : ("premium" : String) ≠ "standard" := by decide
  have hrate : qcSuccessRate "premium" "basic" = 171 / 200 := by
    norm_num [qcSuccessRate, hne]
  have hqcf : performQualityControl "Bagged_Fertilizer" "premium" "basic"
      (9 / 10) = false := by
    rw [performQualityControl, hrate]
    norm_num
  refine ⟨?_, ?_, by norm_num [demoMfgJob], ?_⟩
  · norm_num [mfgCompletionPhase, mfgCreditJob, mfgJobFinished, demoMState,
      demoMfgJob, hqcf]
  · norm_num [mfgCompletionPhase, mfgCreditJob, mfgJobFinished, demoMState,
      demoMfgJob, hqcf, Inv.getD, assocLookup]
  · norm_num [demoMfgJob, habs]

/-- C7 as amended: completion credits a stochastic multiple of the
expected output.  Every completing processing job is credited
`expected × uniform(0.95, 1.05)`, hence within ±5% of its expected
output; a manufacturing completion that passes quality control is
credited `expected × uniform(0.97, 1.03)`, within ±3%; a manufacturing
completion that fails quality control credits zero output.  In
particular, for a recipe with base yield 0.82 and equipment efficiency
1.0, a completed processing job's output is within ±5% of
`batch_size × 0.82` for every value of the uniform draw. -/
theorem completed_yield_bands
    (s2 : PState) (t : ℚ) (j : Job) (draws : Job → ℚ × ℚ) (r rq : ℚ)
    (hdraw : draws j = (r, rq)) (hr1 : 95 / 100 ≤ r) (hr2 : r ≤ 105 / 100)
    (hE : 0 ≤ j.expectedOutputQuantity)
    (m : MState) (tm : ℚ) (mj : MfgJob) (mdraws : MfgJob → ℚ × ℚ) (qcDraw mr : ℚ)
    (hmdraw : mdraws mj = (qcDraw, mr))
    (hmr1 : 97 / 100 ≤ mr) (hmr2 : mr ≤ 103 / 100)
    (hmE : 0 ≤ mj.expectedOutputQuantity)
    (s : PState) (mat : String) (ops : OperatorInputs) (recipe : Recipe)
    (hrec : assocLookup s.transformationRecipes ops.selectedRecipe = some recipe)
    (hav : ops.batchSize ≤ s.rawMaterialStorage.getD mat)
    (heq : equipOk s recipe = true)
    (hy : recipe.conversionRatio = 82 / 100)
    (heff : effOf s recipe.requiredMethod = 1)
    (hb : 0 ≤ ops.batchSize) :
    ((creditJob t draws s2 j).processedMaterialStorage.getD j.expectedOutputMaterial
        = s2.processedMaterialStorage.getD j.expectedOutputMaterial
          + j.expectedOutputQuantity * r
      ∧ |j.expectedOutputQuantity * r - j.expectedOutputQuantity|
          ≤ (5 / 100) * j.expectedOutputQuantity)
    ∧ (performQualityControl mj.expectedOutputProduct mj.qualityStandard
          mj.qualityControlLevel qcDraw = true →
        (mfgCreditJob tm mdraws m mj).finishedGoodsInventory.getD
            mj.expectedOutputProduct
          = m.finishedGoodsInventory.getD mj.expectedOutputProduct
            + mj.expectedOutputQuantity * mr
        ∧ |mj.expectedOutputQuantity * mr - mj.expectedOutputQuantity|
            ≤ (3 / 100) * mj.expectedOutputQuantity)
    ∧ (performQualityControl mj.expectedOutputProduct mj.qualityStandard
          mj.qualityControlLevel qcDraw = false →
        (mfgCreditJob tm mdraws m mj).finishedGoodsInventory
          = m.finishedGoodsInventory
        ∧ (mfgCreditJob tm mdraws m mj).productionHistory.map
              MfgJob.actualOutputQuantity
          = m.productionHistory.map MfgJob.actualOutputQuantity ++ [some 0])
    ∧ ((processMaterial s mat ops).1.isSuccess = true
      ∧ (mkProcessingJob s mat ops recipe).expectedOutputQuantity
          = ops.batchSize * (82 / 100)
      ∧ |(mkProcessingJob s mat ops recipe).expectedOutputQuantity * r
            - ops.batchSize * (82 / 100)|
          ≤ (5 / 100) * (ops.batchSize * (82 / 100))) := by
  have hEq : (mkProcessingJob s mat ops recipe).expectedOutputQuantity
      = ops.batchSize * (82 / 100) := by
    simp [mkProcessingJob, hy, heff]
  have hE0 : (0 : ℚ) ≤ ops.batchSize * (82 / 100) := by
    apply mul_nonneg hb
    norm_num
  refine ⟨⟨?_, ?_⟩, ?_, ?_, ?_, hEq, ?_⟩
  · simp [creditJob, hdraw, Inv.getD_set_self]
  · exact band_of_draw _ r (5 / 100) hE (by linarith) (by linarith)
  · intro hqc
    constructor
    · simp [mfgCreditJob, hmdraw, hqc, Inv.getD_set_self]
    · exact band_of_draw _ mr (3 / 100) hmE (by linarith) (by linarith)
  · intro hqc
    constructor
    · simp [mfgCreditJob, hmdraw, hqc]
    · simp [mfgCreditJob, hmdraw, hqc]
  · rw [processMaterial_success s mat ops recipe hrec hav heq]
    rfl
  · rw [hEq]
    exact band_of_draw _ r (5 / 100) hE0 (by linarith) (by linarith)

/-- Witness for the amended C7: processing draw 102/100 on the demo job,
manufacturing draw pair (1/2, 101/100) on the demo manufacturing job
(QC draw 1/2 is below the 0.855 threshold, so the pass branch fires). -/
theorem completed_yield_bands_witness :
    ((fun (_ : Job) => ((102 : ℚ) / 100, (1 : ℚ))) demoJob = (102 / 100, 1)
      ∧ (95 / 100 : ℚ) ≤ 102 / 100
      ∧ (102 / 100 : ℚ) ≤ 105 / 100
      ∧ (0 : ℚ) ≤ demoJob.expectedOutputQuantity
      ∧ (fun (_ : MfgJob) => ((1 : ℚ) / 2, (101 : ℚ) / 100)) demoMfgJob
          = (1 / 2, 101 / 100)
      ∧ (97 / 100 : ℚ) ≤ 101 / 100
      ∧ (101 / 100 : ℚ) ≤ 103 / 100
      ∧ (0 : ℚ) ≤ demoMfgJob.expectedOutputQuantity
      ∧ assocLookup demoPState.transformationRecipes demoOps.selectedRecipe
          = some demoRecipe
      ∧ demoOps.batchSize ≤ demoPState.rawMaterialStorage.getD "Phosphorite Ore"
      ∧ equipOk demoPState demoRecipe = true
      ∧ demoRecipe.conversionRatio = 82 / 100
      ∧ effOf demoPState demoRecipe.requiredMethod = 1
      ∧ (0 : ℚ) ≤ demoOps.batchSize)
    ∧ (((creditJob 0 (fun _ => (102 / 100, 1))
            demoPState demoJob).processedMaterialStorage.getD
            demoJob.expectedOutputMaterial
          = demoPState.processedMaterialStorage.getD demoJob.expectedOutputMaterial
            + demoJob.expectedOutputQuantity * (102 / 100)
        ∧ |demoJob.expectedOutputQuantity * (102 / 100)
              - demoJob.expectedOutputQuantity|
            ≤ (5 / 100) * demoJob.expectedOutputQuantity)
      ∧ (performQualityControl demoMfgJob.expectedOutputProduct
            demoMfgJob.qualityStandard demoMfgJob.qualityControlLevel (1 / 2) = true →
          (mfgCreditJob 0 (fun _ => (1 / 2, 101 / 100))
              demoMState demoMfgJob).finishedGoodsInventory.getD
              demoMfgJob.expectedOutputProduct
            = demoMState.finishedGoodsInventory.getD demoMfgJob.expectedOutputProduct
              + demoMfgJob.expectedOutputQuantity * (101 / 100)
          ∧ |demoMfgJob.expectedOutputQuantity * (101 / 100)
                - demoMfgJob.expectedOutputQuantity|
              ≤ (3 / 100) * demoMfgJob.expectedOutputQuantity)
      ∧ (performQualityControl demoMfgJob.expectedOutputProduct
            demoMfgJob.qualityStandard demoMfgJob.qualityControlLevel (1 / 2) = false →
          (mfgCreditJob 0 (fun _ => (1 / 2, 101 / 100))
              demoMState demoMfgJob).finishedGoodsInventory
            = demoMState.finishedGoodsInventory
          ∧ (mfgCreditJob 0 (fun _ => (1 / 2, 101 / 100))
                demoMState demoMfgJob).productionHistory.map
                MfgJob.actualOutputQuantity
            = demoMState.productionHistory.map MfgJob.actualOutputQuantity
              ++ [some 0])
      ∧ ((processMaterial demoPState "Phosphorite Ore" demoOps).1.isSuccess = true
        ∧ (mkProcessingJob demoPState "Phosphorite Ore" demoOps
              demoRecipe).expectedOutputQuantity = demoOps.batchSize * (82 / 100)
        ∧ |(mkProcessingJob demoPState "Phosphorite Ore" demoOps
              demoRecipe).expectedOutputQuantity * (102 / 100)
              - demoOps.batchSize * (82 / 100)|
            ≤ (5 / 100) * (demoOps.batchSize * (82 / 100)))) :=
  ⟨⟨by rfl, by norm_num, by norm_num,
    by norm_num [demoJob, mkProcessingJob, demoPState, demoOps, demoRecipe, effOf,
      assocLookup, qualityRef],
    by rfl, by norm_num, by norm_num, by norm_num [demoMfgJob], by rfl,
    by norm_num [demoPState, demoOps, Inv.getD, assocLookup], by rfl,
    by norm_num [demoRecipe],
    by norm_num [demoPState, demoRecipe, effOf, assocLookup],
    by norm_num [demoOps]⟩,
   completed_yield_bands demoPState 0 demoJob (fun _ => (102 / 100, 1))
     (102 / 100) 1 (by rfl) (by norm_num) (by norm_num)
     (by norm_num [demoJob, mkProcessingJob, demoPState, demoOps, demoRecipe, effOf,
       assocLookup, qualityRef])
     demoMState 0 demoMfgJob (fun _ => (1 / 2, 101 / 100)) (1 / 2) (101 / 100)
     (by rfl) (by norm_num) (by norm_num) (by norm_num [demoMfgJob])
     demoPState "Phosphorite Ore" demoOps demoRecipe (by rfl)
     (by norm_num [demoPState, demoOps, Inv.getD, assocLookup]) (by rfl)
     (by norm_num [demoRecipe])
     (by norm_num [demoPState, demoRecipe, effOf, assocLookup])
     (by norm_num [demoOps])⟩

/-- Auto-routing never changes the original/current quantity stored in a
material trace: it only appends a journey step to the trace it touches. -/
theorem traceQty_autoRoute {ρ : Type} (o : OrchState ρ) (mid ore : String)
    (quantity : ℚ) (traceId : String) (t : ℚ) (requestId : String)
    (transportTime : ℚ) (tid : String) :
    (assocLookup (autoRouteFromMining o mid ore quantity traceId t requestId
        transportTime).materialTraces tid).map
        (fun tr => (tr.originalQuantity, tr.currentQuantity))
      = (assocLookup o.materialTraces tid).map
          (fun tr => (tr.originalQuantity, tr.currentQuantity)) := by
  unfold autoRouteFromMining
  cases h1 : assocLookup o.oreToProcessing ore with
  | none => rfl
  | some pid =>
    dsimp only
    cases h2 : assocLookup o.processingAgents pid with
    | none => cases h3 : assocLookup o.miningAgents mid <;> rfl
    | some processor =>
      cases h3 : assocLookup o.miningAgents mid with
      | none => rfl
      | some mine =>
        dsimp only
        by_cases h4 : (createShipmentToProcessing mine ore quantity pid).1 = true
        · rw [if_pos h4]
          cases h5 : (mineProcessShipments
              (createShipmentToProcessing mine ore quantity pid).2 t transportTime).1 with
          | nil => rfl
          | cons sh rest =>
            dsimp only
            by_cases h6 : (receiveShipmentFromMining processor
                { oreType := sh.oreType, quantity := sh.quantity,
                  oreQuality := sh.oreQuality }).1 = true
            · rw [if_pos h6]
              cases h7 : assocLookup o.materialTraces traceId with
              | none => rfl
              | some tr =>
                dsimp only [createProcessingRequest]
                by_cases h8 : tid = traceId
                · subst h8
                  rw [assocLookup_assocSet_self, h7]
                  rfl
                · rw [assocLookup_assocSet_ne _ _ _ _ h8]
            · rw [if_neg h6]
        · rw [if_neg h4]

/-- The extraction result reports `"success"` exactly when a positive
quantity was extracted. -/
theorem mineProcessMaterial_status (s : MineState) (material : Option String)
    (quantity : Option ℚ) (variability : ℚ) :
    ((mineProcessMaterial s material quantity variability).1.status = "success")
      ↔ 0 < (mineProcessMaterial s material quantity variability).1.extractedQuantity := by
  unfold mineProcessMaterial
  dsimp only
  split_ifs <;> simp_all

/-- C9: With an explicit positive requested quantity, the extracted
amount is the minimum of the request, the extraction rate, the remaining
reserves of the ore and the remaining storage capacity, and is never
negative; `inject_raw_materials` raises `RuntimeError` exactly when that
amount is zero and otherwise opens the material trace at the *extracted*
(not the requested) quantity, which one hop of auto-routing preserves. -/
theorem mining_extraction_clamped_and_inject (mine : MineState) (ore : String)
    (q : ℚ) (variability : ℚ)
    (hore : ore ∈ mine.oreTypes) (hq : 0 < q)
    (hrate : 0 ≤ mine.extractionRate)
    (hres : 0 ≤ mine.oreReserves.getD ore)
    (hcap : mine.inventory.total ≤ mine.mineCapacity)
    {ρ : Type} (o : OrchState ρ) (mid : String)
    (hmid : assocLookup o.miningAgents mid = some mine)
    (t : ℚ) (traceId requestId : String) (transportTime : ℚ) :
    (mineProcessMaterial mine (some ore) (some q) variability).1.extractedQuantity
      = min (min q mine.extractionRate)
          (min (mine.oreReserves.getD ore) (mine.mineCapacity - mine.inventory.total))
    ∧ 0 ≤ (mineProcessMaterial mine (some ore) (some q) variability).1.extractedQuantity
    ∧ ((mineProcessMaterial mine (some ore) (some q) variability).1.extractedQuantity = 0 →
        injectRawMaterials o mid ore q t traceId requestId variability transportTime
          = .error (.runtimeError "Extraction failed"))
    ∧ (0 < (mineProcessMaterial mine (some ore) (some q) variability).1.extractedQuantity →
        ∃ o', injectRawMaterials o mid ore q t traceId requestId variability transportTime
            = .ok (traceId, o')
          ∧ (assocLookup o'.materialTraces traceId).map
              (fun tr => (tr.originalQuantity, tr.currentQuantity))
            = some
                ((mineProcessMaterial mine (some ore) (some q) variability).1.extractedQuantity,
                 (mineProcessMaterial mine (some ore) (some q) variability).1.extractedQuantity)) := by
  have hformula :
      (mineProcessMaterial mine (some ore) (some q) variability).1.extractedQuantity
        = min (min q mine.extractionRate)
            (min (mine.oreReserves.getD ore)
              (mine.mineCapacity - mine.inventory.total)) := by
    unfold mineProcessMaterial
    dsimp only
    rw [if_pos hore, if_neg (ne_of_gt hq)]
    have h2 : (if mine.oreReserves.getD ore < min q mine.extractionRate
          then mine.oreReserves.getD ore else min q mine.extractionRate)
        = min (mine.oreReserves.getD ore) (min q mine.extractionRate) := by
      split_ifs with h
      · rw [min_eq_left (le_of_lt h)]
      · rw [min_eq_right (not_lt.mp h)]
    rw [h2]
    have h3 : (if min (mine.oreReserves.getD ore) (min q mine.extractionRate)
            > mine.mineCapacity - mine.inventory.total
          then mine.mineCapacity - mine.inventory.total
          else min (mine.oreReserves.getD ore) (min q mine.extractionRate))
        = min (min (mine.oreReserves.getD ore) (min q mine.extractionRate))
            (mine.mineCapacity - mine.inventory.total) := by
      split_ifs with h
      · rw [min_eq_right (le_of_lt h)]
      · rw [min_eq_left (not_lt.mp h)]
    rw [h3]
    rw [min_comm (mine.oreReserves.getD ore) (min q mine.extractionRate), min_assoc]
  have hnonneg :
      0 ≤ (mineProcessMaterial mine (some ore) (some q) variability).1.extractedQuantity := by
    rw [hformula]
    exact le_min (le_min hq.le hrate) (le_min hres (by linarith))
  refine ⟨hformula, hnonneg, ?_, ?_⟩
  · intro h0
    have hst : ¬ ((mineProcessMaterial mine (some ore) (some q)
        variability).1.status = "success") := by
      rw [mineProcessMaterial_status, h0]
      exact lt_irrefl 0
    simp only [injectRawMaterials, hmid]
    rw [if_pos hst]
  · intro hpos
    have hst : (mineProcessMaterial mine (some ore) (some q)
        variability).1.status = "success" :=
      (mineProcessMaterial_status mine (some ore) (some q) variability).mpr hpos
    simp only [injectRawMaterials, hmid]
    rw [if_neg (by simp [hst])]
    refine ⟨_, rfl, ?_⟩
    rw [traceQty_autoRoute]
    dsimp only
    rw [assocLookup_assocSet_self]
    rfl

/-- Witness for C9: injecting 300 tons at the demo orchestrator. -/
theorem mining_extraction_clamped_and_inject_witness :
    ("Phosphorite Ore" ∈ demoMine.oreTypes
      ∧ (0 : ℚ) < 300
      ∧ (0 : ℚ) ≤ demoMine.extractionRate
      ∧ (0 : ℚ) ≤ demoMine.oreReserves.getD "Phosphorite Ore"
      ∧ demoMine.inventory.total ≤ demoMine.mineCapacity
      ∧ assocLookup demoOrch.miningAgents "MINE_001" = some demoMine)
    ∧ ((mineProcessMaterial demoMine (some "Phosphorite Ore") (some 300) 1).1.extractedQuantity
        = min (min 300 demoMine.extractionRate)
            (min (demoMine.oreReserves.getD "Phosphorite Ore")
              (demoMine.mineCapacity - demoMine.inventory.total))
      ∧ 0 ≤ (mineProcessMaterial demoMine (some "Phosphorite Ore") (some 300) 1).1.extractedQuantity
      ∧ ((mineProcessMaterial demoMine (some "Phosphorite Ore") (some 300) 1).1.extractedQuantity = 0 →
          injectRawMaterials demoOrch "MINE_001" "Phosphorite Ore" 300 0 "TR_2" "REQ_2" 1 4
            = .error (.runtimeError "Extraction failed"))
      ∧ (0 < (mineProcessMaterial demoMine (some "Phosphorite Ore") (some 300) 1).1.extractedQuantity →
          ∃ o', injectRawMaterials demoOrch "MINE_001" "Phosphorite Ore" 300 0 "TR_2" "REQ_2" 1 4
              = .ok ("TR_2", o')
            ∧ (assocLookup o'.materialTraces "TR_2").map
                (fun tr => (tr.originalQuantity, tr.currentQuantity))
              = some
                  ((mineProcessMaterial demoMine (some "Phosphorite Ore") (some 300) 1).1.extractedQuantity,
                   (mineProcessMaterial demoMine (some "Phosphorite Ore") (some 300) 1).1.extractedQuantity))) :=
  ⟨⟨by decide, by norm_num, by norm_num [demoMine],
    by norm_num [demoMine, Inv.getD, assocLookup],
    by norm_num [demoMine, Inv.total], by rfl⟩,
   mining_extraction_clamped_and_inject demoMine "Phosphorite Ore" 300 1
     (by decide) (by norm_num) (by norm_num [demoMine])
     (by norm_num [demoMine, Inv.getD, assocLookup])
     (by norm_num [demoMine, Inv.total]) demoOrch "MINE_001" (by rfl) 0 "TR_2"
     "REQ_2" 4⟩

/-- C10: Processing a pending processing-type request whose
`process_material` call returns an error result still removes the
request from the pending list — a failed decision cannot be resubmitted
against the same request id — and the error result is returned to the
caller unchanged.  Quantified over every success-branch continuation
`onSuccess`, which the error path never reaches. -/
theorem failed_processing_request_removed {ρ : Type} (o : OrchState ρ)
    (requestId : String) (ops : OperatorInputs)
    (onSuccess : OrchState ρ → PResult → OrchState ρ)
    (req : OpRequest) (processor : PState)
    (hfind : o.pendingOperatorRequests.find? (fun r => r.requestId == requestId)
      = some req)
    (htype : req.agentType = "processing")
    (hproc : assocLookup o.processingAgents req.agentId = some processor)
    (herr : (processMaterial processor req.materialType ops).1.isSuccess = false)
    (hnodup : (o.pendingOperatorRequests.map OpRequest.requestId).Nodup) :
    (processOperatorRequest o requestId ops onSuccess).1
      = .processed (processMaterial processor req.materialType ops).1
    ∧ ((processOperatorRequest o requestId ops onSuccess).2).pendingOperatorRequests
      = o.pendingOperatorRequests.erase req
    ∧ ∀ r ∈ ((processOperatorRequest o requestId ops onSuccess).2).pendingOperatorRequests,
        r.requestId ≠ requestId := by
  have hkey : processOperatorRequest o requestId ops onSuccess
      = (.processed (processMaterial processor req.materialType ops).1,
         { o with
             processingAgents := assocSet o.processingAgents req.agentId
               (processMaterial processor req.materialType ops).2
             pendingOperatorRequests := o.pendingOperatorRequests.erase req }) := by
    simp only [processOperatorRequest, hfind]
    rw [if_pos htype]
    simp only [processProcessingRequest, hproc, herr, Bool.false_eq_true, if_false]
  refine ⟨by rw [hkey], by rw [hkey], ?_⟩
  intro r hr
  rw [hkey] at hr
  dsimp only at hr
  have hrl : r ∈ o.pendingOperatorRequests := List.mem_of_mem_erase hr
  have hreqmem : req ∈ o.pendingOperatorRequests := List.mem_of_find?_eq_some hfind
  have hreqid : req.requestId = requestId := by
    have := List.find?_some hfind
    simpa using this
  intro hcontra
  have hre : r = req :=
    List.inj_on_of_nodup_map hnodup hrl hreqmem (by rw [hcontra, hreqid])
  subst hre
  have hnd : o.pendingOperatorRequests.Nodup := List.Nodup.of_map _ hnodup
  rw [hnd.mem_erase_iff] at hr
  exact hr.1 rfl

/-- Witness for C10: the pending demo request names an unknown recipe,
so `process_material` errors, yet the request is removed. -/
theorem failed_processing_request_removed_witness :
    (demoOrch.pendingOperatorRequests.find? (fun r => r.requestId == "REQ_1")
        = some demoRequest
      ∧ demoRequest.agentType = "processing"
      ∧ assocLookup demoOrch.processingAgents demoRequest.agentId = some demoPState
      ∧ (processMaterial demoPState demoRequest.materialType demoOpsBad).1.isSuccess
          = false
      ∧ (demoOrch.pendingOperatorRequests.map OpRequest.requestId).Nodup)
    ∧ ((processOperatorRequest demoOrch "REQ_1" demoOpsBad (fun o _ => o)).1
        = .processed (processMaterial demoPState demoRequest.materialType demoOpsBad).1
      ∧ ((processOperatorRequest demoOrch "REQ_1" demoOpsBad
            (fun o _ => o)).2).pendingOperatorRequests
        = demoOrch.pendingOperatorRequests.erase demoRequest
      ∧ ∀ r ∈ ((processOperatorRequest demoOrch "REQ_1" demoOpsBad
            (fun o _ => o)).2).pendingOperatorRequests,
          r.requestId ≠ "REQ_1") :=
  ⟨⟨by rfl, by rfl, by rfl, by rfl, by decide⟩,
   failed_processing_request_removed demoOrch "REQ_1" demoOpsBad (fun o _ => o)
     demoRequest demoPState (by rfl) (by rfl) (by rfl) (by rfl) (by decide)⟩

end DigitalTwin
